import Mathlib

/-!
Verification development for the kenchi outlier-detection library.

The Python sources under `kenchi/` are shallowly embedded below:

* sample matrices are `List (List ℚ)` (rows = samples, columns = features);
  exact rationals stand in for IEEE floats, so no rounding is modelled;
* each detector class becomes a parameter record plus a state record whose
  `Option` fields mirror the attributes that Python `fit` creates
  (`_knn`, `y_score_`, `threshold_`, ...); a missing attribute is `none`;
* Python methods become functions `state → ... → Except Err result`; `fit`,
  which mutates the instance in place and may raise midway, becomes
  `state → input → Except Err Unit × state`, returning the state as mutated
  up to the point of the raise;
* external numeric capabilities (scikit-learn estimators, scipy's chi-squared
  fit, `np.log`, square roots) are taken as explicit function arguments, with
  the nearest-neighbour query given a concrete executable model.
-/

set_option maxRecDepth 8192

namespace Kenchi

/-- A sample (row) is a list of rationals. -/
abbrev Vec := List ℚ

/-- A sample matrix: rows are samples, columns are features. -/
abbrev Mat := List Vec

/-- The Python exception kinds that the embedded code can surface:
`ValueError` (with its message), scikit-learn's `NotFittedError` raised by
`check_is_fitted`, and `AttributeError` for reading a never-assigned
instance attribute. -/
inductive Err where
  | valueError : String → Err
  | notFittedError : Err
  | attributeError : Err
deriving Repr, DecidableEq

/-- `sklearn.utils.check_array` for 2-D numeric input: rejects an empty
sample set, zero features, and ragged rows (which numpy cannot form into a
2-D numeric array).  Non-finite entries cannot arise over `ℚ`. -/
def check_array (X : Mat) : Except Err Mat :=
  if X.length = 0 then
    .error (Err.valueError ("Found array with 0 sample(s)"))
  else if (X.headD []).length = 0 then
    .error (Err.valueError ("Found array with 0 feature(s)"))
  else if X.all (fun r => r.length = (X.headD []).length) then
    .ok X
  else
    .error (Err.valueError ("could not form a 2-D numeric array"))

/-- Elementwise difference of two rows (`x - y` in numpy). -/
def sub (x y : Vec) : Vec := List.zipWith (fun a b => a - b) x y

/-- Inner product of two rows (`x @ y` in numpy). -/
def dot (x y : Vec) : ℚ := (List.zipWith (fun a b => a * b) x y).sum

/-- Squared Euclidean distance between two rows. -/
def sqDist (x y : Vec) : ℚ := dot (sub x y) (sub x y)

/-- Mean of a list of numbers (`np.mean`). -/
def listMean (xs : List ℚ) : ℚ := xs.sum / (xs.length : ℚ)

/-- Population variance of a list of numbers (`np.var`, `ddof=0`). -/
def listVar (xs : List ℚ) : ℚ :=
  (xs.map (fun x => (x - listMean xs) ^ 2)).sum / (xs.length : ℚ)

/-- Linear interpolation of a sorted sample at fractional index `h`
(`numpy`'s default interpolation between the two adjacent order
statistics). -/
def interpSorted (s : List ℚ) (h : ℚ) : ℚ :=
  let n := s.length
  let i := (⌊h⌋).toNat
  if i + 1 < n then
    s.getD i 0 + (h - (i : ℚ)) * (s.getD (i + 1) 0 - s.getD i 0)
  else
    s.getD (n - 1) 0

/-- `np.percentile(xs, q)` with the default linear interpolation: with the
data sorted ascending and `n` values, the percentile sits at fractional
index `h = q/100 * (n-1)`. -/
def percentile (xs : List ℚ) (q : ℚ) : ℚ :=
  interpSorted (List.insertionSort (· ≤ ·) xs)
    (q / 100 * (((List.insertionSort (· ≤ ·) xs).length : ℚ) - 1))

/-- Transpose of a rectangular matrix (column `j` collects entry `j` of
every row). -/
def matTranspose (X : Mat) : Mat :=
  (List.range (X.headD []).length).map (fun j => X.map (fun r => r.getD j 0))

/-- `np.mean(X, axis=0)`: column means. -/
def colMeans (X : Mat) : Vec := (matTranspose X).map listMean

/-- `np.percentile(Y, q, axis=0)`: column-wise percentiles. -/
def percentileAxis0 (Y : Mat) (q : ℚ) : Vec :=
  (matTranspose Y).map (fun col => percentile col q)

/-- Sequencing a fallible map over a list: Python list comprehensions and
numpy vectorised expressions propagate the first exception raised. -/
def exceptMap (f : α → Except Err β) : List α → Except Err (List β)
  | [] => .ok []
  | x :: xs =>
    match f x with
    | .error e => .error e
    | .ok y =>
      match exceptMap f xs with
      | .error e => .error e
      | .ok ys => .ok (y :: ys)

/-- `itertools.combinations(l, 2)`: all unordered pairs of elements of `l`,
each pair listed once, in source order. -/
def pairs : List α → List (α × α)
  | [] => []
  | x :: xs => xs.map (fun y => (x, y)) ++ pairs xs

/-- Number of training points flagged outlier: entries of the score vector
strictly above the threshold (`anomaly_score > threshold_`). -/
def nFlagged (scores : Vec) (t : ℚ) : Nat :=
  (scores.filter (fun y => t < y)).length

/-- `(anomaly_score(X) > self.threshold_).astype(np.int32)`: the 0/1
prediction vector obtained from a score vector and a threshold. -/
def predictFromScores (ys : Vec) (t : ℚ) : List ℤ :=
  ys.map (fun y => if t < y then (1 : ℤ) else 0)

/-- `kenchi.base.DetectorMixin.predict`: `check_is_fitted(self, 'threshold_')`
then compare `self.anomaly_score(X)` against `self.threshold_`.  The score
computation is the dynamically-dispatched per-family `anomaly_score`. -/
def DetectorMixin.predict (threshold? : Option ℚ)
    (score : Option Mat → Except Err Vec) (X? : Option Mat) :
    Except Err (List ℤ) :=
  match threshold? with
  | none => .error Err.notFittedError
  | some t => (score X?).map (fun ys => predictFromScores ys t)

/-! ## FastABOD (`kenchi/outlier_detection/angle_based/abod.py`) -/

/-- Hyperparameters of `FastABOD.__init__` (the `metric_params` dict and
`n_jobs` only reach the external backend / parallel scheduler and carry no
constraint, so they are kept as plain data). -/
structure FastABODParams where
  fpr : ℚ := 1 / 100
  metric : String := "minkowski"
  n_jobs : ℤ := 1
  n_neighbors : ℤ := 5
  p : ℚ := 2
deriving Repr, DecidableEq

/-- Instance state of a `FastABOD` object: the fitted
`NearestNeighbors` index (which stores the training matrix `_fit_X`), the
cached in-sample scores and the threshold, each absent until assigned. -/
structure FastABODState where
  params : FastABODParams
  _knn : Option Mat := none
  y_score_ : Option Vec := none
  threshold_ : Option ℚ := none
deriving Repr, DecidableEq

/-- `FastABOD.check_params`. -/
def FastABOD.check_params (pr : FastABODParams) : Except Err Unit :=
  if pr.fpr < 0 ∨ 1 < pr.fpr then
    .error (Err.valueError ("fpr must be between 0 and 1 inclusive"))
  else if pr.n_neighbors ≤ 1 then
    .error (Err.valueError ("n_neighbors must be greator than 1"))
  else if pr.p < 1 then
    .error (Err.valueError ("p must be greater than or equal to 1"))
  else .ok ()

/-- `FastABOD.__init__`: store the hyperparameters, then `check_params`. -/
def FastABOD.init (pr : FastABODParams) : Except Err FastABODState :=
  (FastABOD.check_params pr).map (fun _ => { params := pr })

/-- Modelled external capability (numeric backend, spec section 6):
`NearestNeighbors.kneighbors` for one query row.  Returns the indices of
the `k` training rows nearest to `p` (squared Euclidean distance for the
default Minkowski `p=2` metric; ties broken stably by index order),
excluding index `excl` — the query's own index when the training set is
scored (`kneighbors(None)`). -/
def kneighborsPoint (fitX : Mat) (k : Nat) (excl : Option Nat) (p : Vec) :
    List Nat :=
  (List.insertionSort
    (fun i j => sqDist p (fitX.getD i []) ≤ sqDist p (fitX.getD j []))
    ((List.range fitX.length).filter (fun j => excl ≠ some j))).take k

/-- One angle term of `_abof`: `(pa @ pb) / (pa @ pa) / (pb @ pb)` for a
pair of difference vectors, evaluated under `np.errstate(invalid='raise')`.
Over exact arithmetic a denominator `pa @ pa` (a sum of squares) vanishes
iff `pa = 0`, in which case the numerator `pa @ pb` is also `0` and the
float evaluation performs `0.0/0.0` — an *invalid* operation, raised as
`FloatingPointError` and re-surfaced by `FastABOD.anomaly_score` as
`ValueError('X must not contain training samples')`; with both denominators
nonzero no invalid operation occurs. -/
def abofTerm (pa pb : Vec) : Except Err ℚ :=
  if dot pa pa = 0 ∨ dot pb pb = 0 then
    .error (Err.valueError ("X must not contain training samples"))
  else
    .ok (dot pa pb / dot pa pa / dot pb pb)

/-- `_abof` applied to one query row `p` with neighbour index list `indP`:
the population variance of the angle terms over all unordered pairs of the
difference vectors `fit_X[ind_p] - p`. -/
def abofPoint (fitX : Mat) (indP : List Nat) (p : Vec) : Except Err ℚ :=
  (exceptMap (fun ab => abofTerm ab.1 ab.2)
    (pairs (indP.map (fun j => sub (fitX.getD j []) p)))).map listVar

/-- `_abof(X, ind, fit_X)`: row-wise angle-based outlier factors.  The
parallel fan-out over row slices concatenates slice results in order, so it
equals this sequential row map; an exception in any slice propagates. -/
def _abof (fitX : Mat) (X : Mat) (ind : List (List Nat)) :
    Except Err (List ℚ) :=
  exceptMap (fun pi => abofPoint fitX pi.2 pi.1) (X.zip ind)

/-- `FastABOD.anomaly_score`: `check_is_fitted(self, '_knn')`; with `X=None`
score the training set itself with each point's own index excluded from its
neighbours, else validate `X` and query its neighbours; negate the factors
so that higher means more anomalous. -/
def FastABOD.anomaly_score (s : FastABODState) (X? : Option Mat) :
    Except Err Vec :=
  match s._knn with
  | none => .error Err.notFittedError
  | some fitX =>
    match X? with
    | none =>
      let k := s.params.n_neighbors.toNat
      let ind := (List.range fitX.length).map
        (fun i => kneighborsPoint fitX k (some i) (fitX.getD i []))
      (Kenchi._abof fitX fitX ind).map (fun v => v.map (fun t => -t))
    | some X0 =>
      match check_array X0 with
      | .error e => .error e
      | .ok X =>
        let k := s.params.n_neighbors.toNat
        let ind := X.map (fun p => kneighborsPoint fitX k none p)
        (Kenchi._abof fitX X ind).map (fun v => v.map (fun t => -t))

/-- `FastABOD.fit`, with the in-place attribute assignments made explicit:
validate `X`, assign `self._knn`, compute the in-sample scores (which can
raise, leaving `_knn` already overwritten), then assign `self.y_score_` and
`self.threshold_`. -/
def FastABOD.fit (s : FastABODState) (X0 : Mat) :
    Except Err Unit × FastABODState :=
  match check_array X0 with
  | .error e => (.error e, s)
  | .ok X =>
    let s1 := { s with _knn := some X }
    match FastABOD.anomaly_score s1 none with
    | .error e => (.error e, s1)
    | .ok ys =>
      let s2 := { s1 with y_score_ := some ys }
      (.ok (), { s2 with
        threshold_ := some (percentile ys (100 * (1 - s2.params.fpr))) })

/-- `predict` inherited from the detector base class. -/
def FastABOD.predict (s : FastABODState) (X? : Option Mat) :
    Except Err (List ℤ) :=
  DetectorMixin.predict s.threshold_ (FastABOD.anomaly_score s) X?

/-! ## KernelDensityOutlierDetector
(`kenchi/outlier_detection/statistical/nonparametric.py`) -/

/-- The six admissible kernel names. -/
def VALID_KERNELS : List String :=
  ["gaussian", "tophat", "epanechnikov", "exponential", "linear", "cosine"]

/-- Hyperparameters of `KernelDensityOutlierDetector.__init__` (the
`metric_params` dict carries no constraint and only reaches the backend). -/
structure KDEParams where
  bandwidth : ℚ := 1
  fpr : ℚ := 1 / 100
  kernel : String := "gaussian"
  metric : String := "euclidean"
deriving Repr, DecidableEq

/-- Instance state of a `KernelDensityOutlierDetector`: the fitted
`KernelDensity` model is external, kept as its `score_samples` log-density
function. -/
structure KDEState where
  params : KDEParams
  _kde : Option (Mat → Vec) := none
  y_score_ : Option Vec := none
  threshold_ : Option ℚ := none

/-- `KernelDensityOutlierDetector.check_params`. -/
def KDE.check_params (pr : KDEParams) : Except Err Unit :=
  if pr.bandwidth ≤ 0 then
    .error (Err.valueError ("bandwidth must be positive"))
  else if pr.fpr < 0 ∨ 1 < pr.fpr then
    .error (Err.valueError ("fpr must be between 0 and 1 inclusive"))
  else if pr.kernel ∉ VALID_KERNELS then
    .error (Err.valueError ("invalid kernel"))
  else .ok ()

/-- `KernelDensityOutlierDetector.__init__`. -/
def KDE.init (pr : KDEParams) : Except Err KDEState :=
  (KDE.check_params pr).map (fun _ => { params := pr })

/-- `KernelDensityOutlierDetector.anomaly_score`:
`check_is_fitted(self, '_kde')`; `X=None` returns the cached `self.y_score_`
(an `AttributeError` if that attribute was never assigned), otherwise the
negated log-density of the validated samples. -/
def KDE.anomaly_score (s : KDEState) (X? : Option Mat) : Except Err Vec :=
  match s._kde with
  | none => .error Err.notFittedError
  | some model =>
    match X? with
    | none =>
      match s.y_score_ with
      | none => .error Err.attributeError
      | some ys => .ok ys
    | some X0 =>
      (check_array X0).map (fun X => (model X).map (fun t => -t))

/-- `KernelDensityOutlierDetector.fit`: validate, fit the external
`KernelDensity` estimator (`kdeFit` maps the training matrix to the fitted
model's `score_samples` function; the estimator's own hyperparameters —
bandwidth, kernel, metric, but *not* `fpr`, which the code never forwards —
are folded into the backend function), assign `self._kde`, then the
in-sample scores and the empirical-percentile threshold. -/
def KDE.fit (kdeFit : Mat → Mat → Vec) (s : KDEState)
    (X0 : Mat) : Except Err Unit × KDEState :=
  match check_array X0 with
  | .error e => (.error e, s)
  | .ok X =>
    let s1 := { s with _kde := some (kdeFit X) }
    match KDE.anomaly_score s1 (some X) with
    | .error e => (.error e, s1)
    | .ok ys =>
      let s2 := { s1 with y_score_ := some ys }
      (.ok (), { s2 with
        threshold_ := some (percentile ys (100 * (1 - s2.params.fpr))) })

/-- `predict` inherited from the detector base class. -/
def KDE.predict (s : KDEState) (X? : Option Mat) : Except Err (List ℤ) :=
  DetectorMixin.predict s.threshold_ (KDE.anomaly_score s) X?

/-! ## GaussianOutlierDetector
(`kenchi/outlier_detection/statistical/parametric.py`) -/

/-- Hyperparameters of `GaussianOutlierDetector.__init__`. -/
structure GaussianParams where
  alpha : ℚ := 1 / 100
  assume_centered : Bool := false
  fpr : ℚ := 1 / 100
  max_iter : ℤ := 100
  tol : ℚ := 1 / 10000
deriving Repr, DecidableEq

/-- The externally fitted `GraphLasso` model: its estimated precision
matrix, location, and `mahalanobis` scoring function. -/
structure GLModel where
  precision_ : Mat
  location_ : Vec
  mahalanobis : Mat → Vec

/-- Instance state of a `GaussianOutlierDetector`, including the
feature-wise score matrix and threshold vector. -/
structure GaussianState where
  params : GaussianParams
  _glasso : Option GLModel := none
  y_score_ : Option Vec := none
  threshold_ : Option ℚ := none
  Y_score_ : Option Mat := none
  feature_wise_threshold_ : Option Vec := none

/-- `GaussianOutlierDetector.check_params`. -/
def Gaussian.check_params (pr : GaussianParams) : Except Err Unit :=
  if pr.alpha < 0 ∨ 1 < pr.alpha then
    .error (Err.valueError ("alpha must be between 0 and 1 inclusive"))
  else if pr.fpr < 0 ∨ 1 < pr.fpr then
    .error (Err.valueError ("fpr must be between 0 and 1 inclusive"))
  else if pr.max_iter ≤ 0 then
    .error (Err.valueError ("max_iter must be positive"))
  else if pr.tol < 0 then
    .error (Err.valueError ("tol must be non-negative"))
  else .ok ()

/-- `GaussianOutlierDetector.__init__`. -/
def Gaussian.init (pr : GaussianParams) : Except Err GaussianState :=
  (Gaussian.check_params pr).map (fun _ => { params := pr })

/-- `GaussianOutlierDetector.anomaly_score`:
`check_is_fitted(self, ['_glasso'])`; `X=None` returns the cached
`self.y_score_`, otherwise the Mahalanobis scores of the validated
samples. -/
def Gaussian.anomaly_score (s : GaussianState) (X? : Option Mat) :
    Except Err Vec :=
  match s._glasso with
  | none => .error Err.notFittedError
  | some model =>
    match X? with
    | none =>
      match s.y_score_ with
      | none => .error Err.attributeError
      | some ys => .ok ys
    | some X0 => (check_array X0).map (fun X => model.mahalanobis X)

/-- Diagonal of a square matrix (`np.diag`). -/
def matDiag (M : Mat) : Vec :=
  (List.range M.length).map (fun i => (M.getD i []).getD i 0)

/-- Row vector times matrix: `(v @ M)_j = sum_i v_i M_ij`. -/
def vecMat (v : Vec) (M : Mat) : Vec :=
  (matTranspose M).map (fun col => dot v col)

/-- `GaussianOutlierDetector.feature_wise_anomaly_score`: per feature `j`,
`0.5*log(2*pi/precision_jj) + 0.5/precision_jj * ((x - location) @ Precision)_j^2`.
`logQ` and `piQ` stand for the float `np.log` and `np.pi`. -/
def Gaussian.feature_wise_anomaly_score (logQ : ℚ → ℚ) (piQ : ℚ)
    (s : GaussianState) (X? : Option Mat) : Except Err Mat :=
  match s._glasso with
  | none => .error Err.notFittedError
  | some model =>
    match X? with
    | none =>
      match s.Y_score_ with
      | none => .error Err.attributeError
      | some Y => .ok Y
    | some X0 =>
      (check_array X0).map (fun X =>
        X.map (fun r =>
          List.zipWith
            (fun dj wj => 1/2 * logQ (2 * piQ / dj) + 1/2 / dj * wj ^ 2)
            (matDiag model.precision_)
            (vecMat (sub r model.location_) model.precision_)))

/-- `GaussianOutlierDetector.fit`: validate, fit the external `GraphLasso`
(`glassoFit`, with the estimator hyperparameters — `alpha`,
`assume_centered`, `max_iter`, `tol`, but not `fpr` — folded into the
backend function), assign `self._glasso`, the in-sample Mahalanobis scores, the
chi-squared-calibrated threshold (`chi2fit` returns the fitted
`(df, loc, scale)` and `chi2ppf p df loc scale` the quantile), then the
feature-wise score matrix and its per-column empirical percentile
threshold. -/
def Gaussian.fit (glassoFit : Mat → GLModel)
    (chi2fit : Vec → ℚ × ℚ × ℚ) (chi2ppf : ℚ → ℚ → ℚ → ℚ → ℚ)
    (logQ : ℚ → ℚ) (piQ : ℚ) (s : GaussianState) (X0 : Mat) :
    Except Err Unit × GaussianState :=
  match check_array X0 with
  | .error e => (.error e, s)
  | .ok X =>
    let s1 := { s with _glasso := some (glassoFit X) }
    match Gaussian.anomaly_score s1 (some X) with
    | .error e => (.error e, s1)
    | .ok ys =>
      let s2 := { s1 with y_score_ := some ys }
      let dls := chi2fit ys
      let s3 := { s2 with
        threshold_ := some (chi2ppf (1 - s2.params.fpr) dls.1 dls.2.1 dls.2.2) }
      match Gaussian.feature_wise_anomaly_score logQ piQ s3 (some X) with
      | .error e => (.error e, s3)
      | .ok Y =>
        let s4 := { s3 with Y_score_ := some Y }
        (.ok (), { s4 with
          feature_wise_threshold_ :=
            some (percentileAxis0 Y (100 * (1 - s4.params.fpr))) })

/-- `predict` inherited from the detector base class. -/
def Gaussian.predict (s : GaussianState) (X? : Option Mat) :
    Except Err (List ℤ) :=
  DetectorMixin.predict s.threshold_ (Gaussian.anomaly_score s) X?

/-! ## GaussianMixtureOutlierDetector
(`kenchi/outlier_detection/statistical/parametric.py`) -/

/-- The four admissible covariance structures. -/
def VALID_COVARIANCE_TYPES : List String := ["full", "tied", "diag", "spherical"]

/-- Hyperparameters of `GaussianMixtureOutlierDetector.__init__`. -/
structure GMMParams where
  covariance_type : String := "full"
  fpr : ℚ := 1 / 100
  max_iter : ℤ := 100
  means_init : Option Mat := none
  n_components : ℤ := 1
  precisions_init : Option Mat := none
  random_state : Option ℤ := none
  tol : ℚ := 1 / 1000
  warm_start : Bool := false
  weights_init : Option Vec := none
deriving Repr, DecidableEq

/-- Instance state of a `GaussianMixtureOutlierDetector`: the fitted
external mixture model is kept as its `score_samples` log-likelihood
function. -/
structure GMMState where
  params : GMMParams
  _gmm : Option (Mat → Vec) := none
  y_score_ : Option Vec := none
  threshold_ : Option ℚ := none

/-- `GaussianMixtureOutlierDetector.check_params`. -/
def GMM.check_params (pr : GMMParams) : Except Err Unit :=
  if pr.covariance_type ∉ VALID_COVARIANCE_TYPES then
    .error (Err.valueError ("invalid covariance_type"))
  else if pr.fpr < 0 ∨ 1 < pr.fpr then
    .error (Err.valueError ("fpr must be between 0 and 1 inclusive"))
  else if pr.max_iter ≤ 0 then
    .error (Err.valueError ("max_iter must be positive"))
  else if pr.n_components ≤ 0 then
    .error (Err.valueError ("n_components must be positive"))
  else if pr.tol < 0 then
    .error (Err.valueError ("tol must be non-negative"))
  else .ok ()

/-- `GaussianMixtureOutlierDetector.__init__`. -/
def GMM.init (pr : GMMParams) : Except Err GMMState :=
  (GMM.check_params pr).map (fun _ => { params := pr })

/-- `GaussianMixtureOutlierDetector.anomaly_score`:
`check_is_fitted(self, '_gmm')`; `X=None` returns the cached
`self.y_score_`, otherwise the negated log-likelihood of the validated
samples. -/
def GMM.anomaly_score (s : GMMState) (X? : Option Mat) : Except Err Vec :=
  match s._gmm with
  | none => .error Err.notFittedError
  | some model =>
    match X? with
    | none =>
      match s.y_score_ with
      | none => .error Err.attributeError
      | some ys => .ok ys
    | some X0 =>
      (check_array X0).map (fun X => (model X).map (fun t => -t))

/-- `GaussianMixtureOutlierDetector.fit`: validate, run the external EM
solver (`gmmFit`, with the estimator hyperparameters — everything except
`fpr`, which the code never forwards to `GaussianMixture` — folded into the
backend function), assign `self._gmm`, the in-sample scores, and the
empirical-percentile threshold. -/
def GMM.fit (gmmFit : Mat → Mat → Vec) (s : GMMState)
    (X0 : Mat) : Except Err Unit × GMMState :=
  match check_array X0 with
  | .error e => (.error e, s)
  | .ok X =>
    let s1 := { s with _gmm := some (gmmFit X) }
    match GMM.anomaly_score s1 (some X) with
    | .error e => (.error e, s1)
    | .ok ys =>
      let s2 := { s1 with y_score_ := some ys }
      (.ok (), { s2 with
        threshold_ := some (percentile ys (100 * (1 - s2.params.fpr))) })

/-- `predict` inherited from the detector base class. -/
def GMM.predict (s : GMMState) (X? : Option Mat) : Except Err (List ℤ) :=
  DetectorMixin.predict s.threshold_ (GMM.anomaly_score s) X?

/-! ## VMFOutlierDetector
(`kenchi/outlier_detection/statistical/parametric.py`) -/

/-- Hyperparameters of `VMFOutlierDetector.__init__`. -/
structure VMFParams where
  assume_normalized : Bool := false
  fpr : ℚ := 1 / 100
deriving Repr, DecidableEq

/-- Instance state of a `VMFOutlierDetector`.  The fitted
`sklearn.preprocessing.Normalizer` is stateless (its `transform` divides
each row by its L2 norm), so the `_normalizer` attribute carries no data —
only its presence or absence matters. -/
structure VMFState where
  params : VMFParams
  _normalizer : Option Unit := none
  mean_direction_ : Option Vec := none
  y_score_ : Option Vec := none
  threshold_ : Option ℚ := none
deriving Repr, DecidableEq

/-- `VMFOutlierDetector.check_params`. -/
def VMF.check_params (pr : VMFParams) : Except Err Unit :=
  if pr.fpr < 0 ∨ 1 < pr.fpr then
    .error (Err.valueError ("fpr must be between 0 and 1 inclusive"))
  else .ok ()

/-- `VMFOutlierDetector.__init__`. -/
def VMF.init (pr : VMFParams) : Except Err VMFState :=
  (VMF.check_params pr).map (fun _ => { params := pr })

/-- `Normalizer().transform`: divide every row by its L2 norm.  `sqrtQ`
stands for the float square root. -/
def normalizeRows (sqrtQ : ℚ → ℚ) (X : Mat) : Mat :=
  X.map (fun r => r.map (fun t => t / sqrtQ (dot r r)))

/-- `VMFOutlierDetector.anomaly_score`: note that
`check_is_fitted(self, '_normalizer')` guards the method even though the
`_normalizer` attribute is only ever assigned on the
`assume_normalized=False` path of `fit`.  `X=None` returns the cached
`self.y_score_`; otherwise the validated (and, unless `assume_normalized`,
re-normalized) samples are scored as `1 - X @ mean_direction_`. -/
def VMF.anomaly_score (sqrtQ : ℚ → ℚ) (s : VMFState) (X? : Option Mat) :
    Except Err Vec :=
  match s._normalizer with
  | none => .error Err.notFittedError
  | some _ =>
    match X? with
    | none =>
      match s.y_score_ with
      | none => .error Err.attributeError
      | some ys => .ok ys
    | some X0 =>
      match check_array X0 with
      | .error e => .error e
      | .ok X1 =>
        let X := if s.params.assume_normalized then X1
                 else normalizeRows sqrtQ X1
        match s.mean_direction_ with
        | none => .error Err.attributeError
        | some md => .ok (X.map (fun r => 1 - dot r md))

/-- `VMFOutlierDetector.fit`: validate; unless `assume_normalized`, fit the
`Normalizer` (assigning `self._normalizer`) and replace `X` by its
normalized rows; assign `self.mean_direction_` (the normalized column
mean); compute the in-sample scores by calling `anomaly_score` on the
(already normalized) `X`; assign `self.y_score_` and the
chi-squared-calibrated threshold. -/
def VMF.fit (sqrtQ : ℚ → ℚ) (chi2fit : Vec → ℚ × ℚ × ℚ)
    (chi2ppf : ℚ → ℚ → ℚ → ℚ → ℚ) (s : VMFState) (X0 : Mat) :
    Except Err Unit × VMFState :=
  match check_array X0 with
  | .error e => (.error e, s)
  | .ok X1 =>
    let s1 := if s.params.assume_normalized then s
              else { s with _normalizer := some () }
    let X := if s.params.assume_normalized then X1
             else normalizeRows sqrtQ X1
    let mean := colMeans X
    let s2 := { s1 with
      mean_direction_ := some (mean.map (fun t => t / sqrtQ (dot mean mean))) }
    match VMF.anomaly_score sqrtQ s2 (some X) with
    | .error e => (.error e, s2)
    | .ok ys =>
      let s3 := { s2 with y_score_ := some ys }
      let dls := chi2fit ys
      (.ok (), { s3 with
        threshold_ := some (chi2ppf (1 - s3.params.fpr) dls.1 dls.2.1 dls.2.2) })

/-- `predict` inherited from the detector base class. -/
def VMF.predict (sqrtQ : ℚ → ℚ) (s : VMFState) (X? : Option Mat) :
    Except Err (List ℤ) :=
  DetectorMixin.predict s.threshold_ (VMF.anomaly_score sqrtQ s) X?

/-! ## Supporting lemmas -/

theorem check_array_ok (X Y : Mat) (h : check_array X = .ok Y) : Y = X := by
  unfold check_array at h
  split at h
  · exact absurd h (by simp)
  · split at h
    · exact absurd h (by simp)
    · split at h
      · cases h; rfl
      · exact absurd h (by simp)

theorem exceptMap_ok_length {f : α → Except Err β} {xs : List α}
    {ys : List β} (h : exceptMap f xs = .ok ys) : ys.length = xs.length := by
  induction xs generalizing ys with
  | nil => cases h; rfl
  | cons x xs ih =>
    unfold exceptMap at h
    cases hfx : f x with
    | error e => rw [hfx] at h; exact absurd h (by simp)
    | ok y =>
      rw [hfx] at h
      cases hrec : exceptMap f xs with
      | error e => rw [hrec] at h; exact absurd h (by simp)
      | ok ys' =>
        rw [hrec] at h
        cases h
        simpa using ih hrec

theorem exceptMap_ok_getD {f : α → Except Err β} {xs : List α} {ys : List β}
    (h : exceptMap f xs = .ok ys) (dx : α) (dy : β) :
    ∀ i, i < xs.length → f (xs.getD i dx) = .ok (ys.getD i dy) := by
  induction xs generalizing ys with
  | nil => intro i hi; exact absurd hi (by simp)
  | cons x xs ih =>
    unfold exceptMap at h
    cases hfx : f x with
    | error e => rw [hfx] at h; exact absurd h (by simp)
    | ok y =>
      rw [hfx] at h
      cases hrec : exceptMap f xs with
      | error e => rw [hrec] at h; exact absurd h (by simp)
      | ok ys' =>
        rw [hrec] at h
        cases h
        intro i hi
        match i with
        | 0 => simpa using hfx
        | Nat.succ i => exact ih hrec i (by simpa using hi)

theorem exceptMap_error_mem {f : α → Except Err β} {xs : List α} {e : Err}
    (h : exceptMap f xs = .error e) : ∃ x ∈ xs, f x = .error e := by
  induction xs with
  | nil => exact absurd h (by simp [exceptMap])
  | cons x xs ih =>
    unfold exceptMap at h
    cases hfx : f x with
    | error e' =>
      rw [hfx] at h
      cases h
      exact ⟨x, List.mem_cons_self x xs, hfx⟩
    | ok y =>
      rw [hfx] at h
      cases hrec : exceptMap f xs with
      | error e' =>
        rw [hrec] at h
        cases h
        obtain ⟨z, hz, hfz⟩ := ih hrec
        exact ⟨z, List.mem_cons_of_mem x hz, hfz⟩
      | ok ys => rw [hrec] at h; exact absurd h (by simp)

theorem exceptMap_error_of_mem {f : α → Except Err β} {xs : List α} {x : α}
    {e : Err} (hx : x ∈ xs) (hfx : f x = .error e)
    (huniq : ∀ y ∈ xs, ∀ e', f y = .error e' → e' = e) :
    exceptMap f xs = .error e := by
  induction xs with
  | nil => cases hx
  | cons z zs ih =>
    unfold exceptMap
    cases hfz : f z with
    | error e' =>
      rw [huniq z (List.mem_cons_self z zs) e' hfz]
    | ok y =>
      have hxz : x ∈ zs := by
        rcases List.mem_cons.1 hx with h | h
        · subst h; rw [hfx] at hfz; exact absurd hfz (by simp)
        · exact h
      rw [ih hxz (fun y hy => huniq y (List.mem_cons_of_mem z hy))]

theorem dot_self_nonneg (v : Vec) : 0 ≤ dot v v := by
  induction v with
  | nil => simp [dot]
  | cons a v ih =>
    simp only [dot, List.zipWith_cons_cons, List.sum_cons] at *
    nlinarith [sq_nonneg a]

theorem sub_self_zipWith (x : Vec) : sub x x = List.replicate x.length 0 := by
  induction x with
  | nil => rfl
  | cons a x ih =>
    show (a - a) :: sub x x = 0 :: List.replicate x.length 0
    rw [sub_self, ih]

theorem sqDist_self (x : Vec) : sqDist x x = 0 := by
  unfold sqDist
  rw [sub_self_zipWith]
  induction x.length with
  | zero => rfl
  | succ n ih => simpa [List.replicate, dot] using ih

theorem dot_sub_comm (p a b : Vec) :
    dot (sub a p) (sub b p) = dot (sub p a) (sub p b) := by
  induction p generalizing a b with
  | nil => simp [sub, dot]
  | cons q p ih =>
    cases a with
    | nil => simp [sub, dot]
    | cons x a =>
      cases b with
      | nil => simp [sub, dot]
      | cons y b =>
        simp only [sub, dot, List.zipWith_cons_cons, List.sum_cons] at *
        rw [ih a b]
        ring_nf

theorem sqDist_comm (x y : Vec) : sqDist x y = sqDist y x := by
  unfold sqDist
  exact dot_sub_comm y x x

theorem getD_map_lt (f : α → β) (xs : List α) (i : Nat) (hi : i < xs.length)
    (dx : α) (dy : β) : (xs.map f).getD i dy = f (xs.getD i dx) := by
  induction xs generalizing i with
  | nil => exact absurd hi (by simp)
  | cons x xs ih =>
    match i with
    | 0 => rfl
    | Nat.succ i => exact ih i (by simpa using hi)

theorem getD_zip_lt (xs : List α) (ys : List β) (i : Nat)
    (hi : i < xs.length) (hi' : i < ys.length) (dx : α) (dy : β) :
    (xs.zip ys).getD i (dx, dy) = (xs.getD i dx, ys.getD i dy) := by
  induction xs generalizing ys i with
  | nil => exact absurd hi (by simp)
  | cons x xs ih =>
    cases ys with
    | nil => exact absurd hi' (by simp)
    | cons y ys =>
      match i with
      | 0 => rfl
      | Nat.succ i =>
        exact ih ys i (by simpa using hi) (by simpa using hi')

theorem getD_mem (xs : List α) (i : Nat) (hi : i < xs.length) (d : α) :
    xs.getD i d ∈ xs := by
  rw [List.getD_eq_get _ _ hi]
  exact List.get_mem xs _ _

instance instDecEqExceptErr {α : Type} [DecidableEq α] :
    DecidableEq (Except Err α) := fun a b =>
  match a, b with
  | .error e, .error f =>
    if h : e = f then isTrue (by rw [h])
    else isFalse (by intro hc; cases hc; exact h rfl)
  | .error _, .ok _ => isFalse (by intro hc; cases hc)
  | .ok _, .error _ => isFalse (by intro hc; cases hc)
  | .ok x, .ok y =>
    if h : x = y then isTrue (by rw [h])
    else isFalse (by intro hc; cases hc; exact h rfl)

theorem fastabod_init_ok {pr : FastABODParams} {s : FastABODState}
    (h : FastABOD.init pr = .ok s) : s = { params := pr } := by
  unfold FastABOD.init at h
  cases hc : FastABOD.check_params pr <;> rw [hc] at h
  · exact absurd h (by simp [Except.map])
  · simpa [Except.map] using h.symm

theorem kde_init_ok {pr : KDEParams} {s : KDEState}
    (h : KDE.init pr = .ok s) : s = { params := pr } := by
  unfold KDE.init at h
  cases hc : KDE.check_params pr <;> rw [hc] at h
  · exact absurd h (by simp [Except.map])
  · simpa [Except.map] using h.symm

theorem gaussian_init_ok {pr : GaussianParams} {s : GaussianState}
    (h : Gaussian.init pr = .ok s) : s = { params := pr } := by
  unfold Gaussian.init at h
  cases hc : Gaussian.check_params pr <;> rw [hc] at h
  · exact absurd h (by simp [Except.map])
  · simpa [Except.map] using h.symm

theorem gmm_init_ok {pr : GMMParams} {s : GMMState}
    (h : GMM.init pr = .ok s) : s = { params := pr } := by
  unfold GMM.init at h
  cases hc : GMM.check_params pr <;> rw [hc] at h
  · exact absurd h (by simp [Except.map])
  · simpa [Except.map] using h.symm

theorem vmf_init_ok {pr : VMFParams} {s : VMFState}
    (h : VMF.init pr = .ok s) : s = { params := pr } := by
  unfold VMF.init at h
  cases hc : VMF.check_params pr <;> rw [hc] at h
  · exact absurd h (by simp [Except.map])
  · simpa [Except.map] using h.symm

/-- Computation rule for `FastABOD.fit` when input validation fails. -/
theorem fastabod_fit_eq_of_check_error {s : FastABODState} {X : Mat} {e : Err}
    (hc : check_array X = .error e) : FastABOD.fit s X = (.error e, s) := by
  unfold FastABOD.fit
  rw [hc]

/-- Computation rule for `FastABOD.fit` when the in-sample score
computation fails: `_knn` has already been overwritten. -/
theorem fastabod_fit_eq_of_score_error {s : FastABODState} {X X1 : Mat}
    {e : Err} (hc : check_array X = .ok X1)
    (ha : FastABOD.anomaly_score { s with _knn := some X1 } none = .error e) :
    FastABOD.fit s X = (.error e, { s with _knn := some X1 }) := by
  unfold FastABOD.fit
  rw [hc]
  simp only [ha]

/-- Computation rule for a successful `FastABOD.fit`. -/
theorem fastabod_fit_eq_of_score_ok {s : FastABODState} {X X1 : Mat}
    {ys : Vec} (hc : check_array X = .ok X1)
    (ha : FastABOD.anomaly_score { s with _knn := some X1 } none = .ok ys) :
    FastABOD.fit s X = (.ok (), { s with
      _knn := some X1,
      y_score_ := some ys,
      threshold_ := some (percentile ys (100 * (1 - s.params.fpr))) }) := by
  unfold FastABOD.fit
  rw [hc]
  simp only [ha]

/-- Shape of a *failed* `FastABOD.fit`: the cached scores and threshold are
never touched, and if validation itself failed nothing at all is; only
`_knn` may have been overwritten before the raise. -/
theorem fastabod_fit_error_fields {s : FastABODState} {X : Mat} {e : Err}
    (h : (FastABOD.fit s X).1 = .error e) :
    (FastABOD.fit s X).2.params = s.params ∧
    (FastABOD.fit s X).2.y_score_ = s.y_score_ ∧
    (FastABOD.fit s X).2.threshold_ = s.threshold_ ∧
    (∀ e', check_array X = .error e' → (FastABOD.fit s X).2 = s) := by
  cases hc : check_array X with
  | error e' =>
    rw [fastabod_fit_eq_of_check_error hc]
    exact ⟨rfl, rfl, rfl, fun _ _ => rfl⟩
  | ok X1 =>
    cases ha : FastABOD.anomaly_score { s with _knn := some X1 } none with
    | error e'' =>
      rw [fastabod_fit_eq_of_score_error hc ha]
      refine ⟨rfl, rfl, rfl, fun e3 he3 => ?_⟩
      cases he3
    | ok ys =>
      rw [fastabod_fit_eq_of_score_ok hc ha] at h
      cases h

/-- Shape of a *successful* `FastABOD.fit`. -/
theorem fastabod_fit_ok {s s' : FastABODState} {X : Mat}
    (h : FastABOD.fit s X = (.ok (), s')) :
    ∃ X1 ys, check_array X = .ok X1 ∧
      FastABOD.anomaly_score { s with _knn := some X1 } none = .ok ys ∧
      s' = { s with
        _knn := some X1,
        y_score_ := some ys,
        threshold_ := some (percentile ys (100 * (1 - s.params.fpr))) } := by
  cases hc : check_array X with
  | error e =>
    rw [fastabod_fit_eq_of_check_error hc] at h
    cases (Prod.ext_iff.1 h).1
  | ok X1 =>
    cases ha : FastABOD.anomaly_score { s with _knn := some X1 } none with
    | error e =>
      rw [fastabod_fit_eq_of_score_error hc ha] at h
      cases (Prod.ext_iff.1 h).1
    | ok ys =>
      rw [fastabod_fit_eq_of_score_ok hc ha] at h
      exact ⟨X1, ys, rfl, ha, (Prod.ext_iff.1 h).2.symm⟩

/-- Computation rules for `KDE.fit`, as for `FastABOD.fit`. -/
theorem kde_fit_eq_of_check_error {B : Mat → Mat → Vec}
    {s : KDEState} {X : Mat} {e : Err} (hc : check_array X = .error e) :
    KDE.fit B s X = (.error e, s) := by
  unfold KDE.fit
  rw [hc]

theorem kde_fit_eq_of_score_error {B : Mat → Mat → Vec}
    {s : KDEState} {X X1 : Mat} {e : Err} (hc : check_array X = .ok X1)
    (ha : KDE.anomaly_score { s with _kde := some (B X1) }
      (some X1) = .error e) :
    KDE.fit B s X = (.error e, { s with _kde := some (B X1) }) := by
  unfold KDE.fit
  rw [hc]
  simp only [ha]

theorem kde_fit_eq_of_score_ok {B : Mat → Mat → Vec}
    {s : KDEState} {X X1 : Mat} {ys : Vec} (hc : check_array X = .ok X1)
    (ha : KDE.anomaly_score { s with _kde := some (B X1) }
      (some X1) = .ok ys) :
    KDE.fit B s X = (.ok (), { s with
      _kde := some (B X1),
      y_score_ := some ys,
      threshold_ := some (percentile ys (100 * (1 - s.params.fpr))) }) := by
  unfold KDE.fit
  rw [hc]
  simp only [ha]

theorem kde_fit_ok {B : Mat → Mat → Vec} {s s' : KDEState}
    {X : Mat} (h : KDE.fit B s X = (.ok (), s')) :
    ∃ X1 ys, check_array X = .ok X1 ∧
      KDE.anomaly_score { s with _kde := some (B X1) } (some X1) = .ok ys ∧
      s' = { s with
        _kde := some (B X1),
        y_score_ := some ys,
        threshold_ := some (percentile ys (100 * (1 - s.params.fpr))) } := by
  cases hc : check_array X with
  | error e =>
    rw [kde_fit_eq_of_check_error hc] at h
    cases (Prod.ext_iff.1 h).1
  | ok X1 =>
    cases ha : KDE.anomaly_score { s with _kde := some (B X1) } (some X1) with
    | error e =>
      rw [kde_fit_eq_of_score_error hc ha] at h
      cases (Prod.ext_iff.1 h).1
    | ok ys =>
      rw [kde_fit_eq_of_score_ok hc ha] at h
      exact ⟨X1, ys, rfl, ha, (Prod.ext_iff.1 h).2.symm⟩

/-- Computation rules for `GMM.fit`. -/
theorem gmm_fit_eq_of_check_error {B : Mat → Mat → Vec}
    {s : GMMState} {X : Mat} {e : Err} (hc : check_array X = .error e) :
    GMM.fit B s X = (.error e, s) := by
  unfold GMM.fit
  rw [hc]

theorem gmm_fit_eq_of_score_error {B : Mat → Mat → Vec}
    {s : GMMState} {X X1 : Mat} {e : Err} (hc : check_array X = .ok X1)
    (ha : GMM.anomaly_score { s with _gmm := some (B X1) }
      (some X1) = .error e) :
    GMM.fit B s X = (.error e, { s with _gmm := some (B X1) }) := by
  unfold GMM.fit
  rw [hc]
  simp only [ha]

theorem gmm_fit_eq_of_score_ok {B : Mat → Mat → Vec}
    {s : GMMState} {X X1 : Mat} {ys : Vec} (hc : check_array X = .ok X1)
    (ha : GMM.anomaly_score { s with _gmm := some (B X1) }
      (some X1) = .ok ys) :
    GMM.fit B s X = (.ok (), { s with
      _gmm := some (B X1),
      y_score_ := some ys,
      threshold_ := some (percentile ys (100 * (1 - s.params.fpr))) }) := by
  unfold GMM.fit
  rw [hc]
  simp only [ha]

theorem gmm_fit_ok {B : Mat → Mat → Vec} {s s' : GMMState}
    {X : Mat} (h : GMM.fit B s X = (.ok (), s')) :
    ∃ X1 ys, check_array X = .ok X1 ∧
      GMM.anomaly_score { s with _gmm := some (B X1) } (some X1) = .ok ys ∧
      s' = { s with
        _gmm := some (B X1),
        y_score_ := some ys,
        threshold_ := some (percentile ys (100 * (1 - s.params.fpr))) } := by
  cases hc : check_array X with
  | error e =>
    rw [gmm_fit_eq_of_check_error hc] at h
    cases (Prod.ext_iff.1 h).1
  | ok X1 =>
    cases ha : GMM.anomaly_score { s with _gmm := some (B X1) } (some X1) with
    | error e =>
      rw [gmm_fit_eq_of_score_error hc ha] at h
      cases (Prod.ext_iff.1 h).1
    | ok ys =>
      rw [gmm_fit_eq_of_score_ok hc ha] at h
      exact ⟨X1, ys, rfl, ha, (Prod.ext_iff.1 h).2.symm⟩

/-- Shape of a successful `Gaussian.fit`: the fields it leaves behind. -/
theorem gaussian_fit_ok {glassoFit : Mat → GLModel}
    {chi2fit : Vec → ℚ × ℚ × ℚ} {chi2ppf : ℚ → ℚ → ℚ → ℚ → ℚ}
    {logQ : ℚ → ℚ} {piQ : ℚ} {s s' : GaussianState} {X : Mat}
    (h : Gaussian.fit glassoFit chi2fit chi2ppf logQ piQ s X = (.ok (), s')) :
    ∃ X1 ys Y, check_array X = .ok X1 ∧ s'.params = s.params ∧
      s'._glasso = some (glassoFit X1) ∧ s'.y_score_ = some ys ∧
      s'.threshold_ = some (chi2ppf (1 - s.params.fpr) (chi2fit ys).1
        (chi2fit ys).2.1 (chi2fit ys).2.2) ∧
      s'.Y_score_ = some Y := by
  unfold Gaussian.fit at h
  split at h
  · cases (Prod.ext_iff.1 h).1
  · rename_i X1 hc
    simp only [] at h
    split at h
    · cases (Prod.ext_iff.1 h).1
    · rename_i ys ha
      split at h
      · cases (Prod.ext_iff.1 h).1
      · rename_i Y hf
        obtain rfl := (Prod.mk.inj h).2
        exact ⟨X1, ys, Y, hc, rfl, rfl, rfl, rfl, rfl⟩

/-- Shape of a successful `VMF.fit`: the fields it leaves behind (success
requires the `_normalizer` attribute to be present). -/
theorem vmf_fit_ok {sqrtQ : ℚ → ℚ} {chi2fit : Vec → ℚ × ℚ × ℚ}
    {chi2ppf : ℚ → ℚ → ℚ → ℚ → ℚ} {s s' : VMFState} {X : Mat}
    (h : VMF.fit sqrtQ chi2fit chi2ppf s X = (.ok (), s')) :
    ∃ ys u, s'.y_score_ = some ys ∧
      s'.threshold_ = some (chi2ppf (1 - s.params.fpr) (chi2fit ys).1
        (chi2fit ys).2.1 (chi2fit ys).2.2) ∧
      s'.params = s.params ∧ s'._normalizer = some u := by
  unfold VMF.fit at h
  split at h
  · cases (Prod.ext_iff.1 h).1
  · rename_i X1 hc
    by_cases hb : s.params.assume_normalized
    · simp only [hb, if_true] at h
      split at h
      · cases (Prod.ext_iff.1 h).1
      · rename_i ys ha
        cases hn : s._normalizer with
        | none =>
          unfold VMF.anomaly_score at ha
          simp only [hn] at ha
          cases ha
        | some u =>
          obtain rfl := (Prod.mk.inj h).2
          exact ⟨ys, u, rfl, rfl, rfl, hn⟩
    · simp only [hb, if_false] at h
      split at h
      · cases (Prod.ext_iff.1 h).1
      · rename_i ys ha
        obtain rfl := (Prod.mk.inj h).2
        exact ⟨ys, (), rfl, rfl, rfl, rfl⟩


theorem except_map_ok {α β : Type} {f : α → β} {r : Except Err α} {y : β}
    (h : Except.map f r = .ok y) : ∃ x, r = .ok x ∧ y = f x := by
  cases r with
  | error e => simp [Except.map] at h
  | ok x =>
    refine ⟨x, rfl, ?_⟩
    simpa [Except.map] using h.symm

theorem except_map_error {α β : Type} {f : α → β} {r : Except Err α} {e : Err}
    (h : r = .error e) : Except.map f r = .error e := by
  rw [h]
  rfl

/-- Computation rule for `FastABOD.anomaly_score` on explicit valid input. -/
theorem fastabod_score_some_eq {s : FastABODState} {fitX : Mat}
    (hk : s._knn = some fitX) {X X1 : Mat} (hc : check_array X = .ok X1) :
    FastABOD.anomaly_score s (some X) =
      Except.map (fun v => v.map (fun t => -t))
        (Kenchi._abof fitX X1 (X1.map (fun p =>
          kneighborsPoint fitX s.params.n_neighbors.toNat none p))) := by
  unfold FastABOD.anomaly_score
  simp only [hk, hc]

/-- Computation rule for `FastABOD.anomaly_score` on invalid input. -/
theorem fastabod_score_some_check_error {s : FastABODState}
    {fitX : Mat} (hk : s._knn = some fitX) {X : Mat} {e : Err}
    (hc : check_array X = .error e) :
    FastABOD.anomaly_score s (some X) = .error e := by
  unfold FastABOD.anomaly_score
  simp only [hk, hc]

/-- Computation rule for `FastABOD.anomaly_score` on `X=None`. -/
theorem fastabod_score_none_eq (fitX : Mat) {s : FastABODState}
    (hk : s._knn = some fitX) :
    FastABOD.anomaly_score s none =
      Except.map (fun v => v.map (fun t => -t))
        (Kenchi._abof fitX fitX ((List.range fitX.length).map (fun i =>
          kneighborsPoint fitX s.params.n_neighbors.toNat (some i)
            (fitX.getD i [])))) := by
  unfold FastABOD.anomaly_score
  simp only [hk]

/-! ## Claim C1 -/

/-- **C1.**  The claim states that for every `VMFOutlierDetector`
constructed with `assume_normalized=True` and every valid sample matrix
`X`, `fit(X)` completes successfully.  In fact `fit` *always* raises
scikit-learn's `NotFittedError` on this configuration: line 400 of
`parametric.py` computes the in-sample scores through
`self.anomaly_score(X)`, whose guard `check_is_fitted(self, '_normalizer')`
demands the `_normalizer` attribute — but that attribute is only created on
the `assume_normalized=False` branch of `fit`.  This theorem evaluates the
embedded code: for every state whose `assume_normalized` flag is set and
whose `_normalizer` attribute is absent (as on any fresh instance, and
permanently, since no code path ever assigns it under this flag), and every
`X` accepted by validation, `fit` raises `NotFittedError`. -/
theorem C1_vmf_fit_raises_on_assume_normalized (sqrtQ : ℚ → ℚ)
    (chi2fit : Vec → ℚ × ℚ × ℚ) (chi2ppf : ℚ → ℚ → ℚ → ℚ → ℚ)
    (s : VMFState) (X : Mat)
    (hT : s.params.assume_normalized = true)
    (hN : s._normalizer = none)
    (hX : check_array X = .ok X) :
    (VMF.fit sqrtQ chi2fit chi2ppf s X).1 = .error Err.notFittedError := by
  unfold VMF.fit
  rw [hX]
  simp only [hT, if_true]
  unfold VMF.anomaly_score
  simp only [hN]

/-- Closed witness for C1: the concrete failing input
`VMFOutlierDetector(assume_normalized=True).fit([[1,0],[0,1]])`. -/
theorem C1_witness :
    ({ params := { assume_normalized := true, fpr := 1/100 } } :
        VMFState).params.assume_normalized = true ∧
    ({ params := { assume_normalized := true, fpr := 1/100 } } :
        VMFState)._normalizer = none ∧
    check_array [[1, 0], [0, 1]] = .ok [[1, 0], [0, 1]] ∧
    (VMF.fit (fun q => q) (fun _ => (1, 0, 1)) (fun p _ _ _ => p)
      { params := { assume_normalized := true, fpr := 1/100 } }
      [[1, 0], [0, 1]]).1 = .error Err.notFittedError :=
  ⟨rfl, rfl, rfl,
    C1_vmf_fit_raises_on_assume_normalized (fun q => q) (fun _ => (1, 0, 1))
      (fun p _ _ _ => p) _ _ rfl rfl rfl⟩

/-! ## Claim C4 -/

/-- **C4 counterexample.**  The claim states a failed `fit` leaves all
previously fitted state untouched, failing before any state mutation.  Here
a `FastABOD` detector is successfully fitted on `[[0],[1],[4]]`, then
re-fitted on `[[0],[0],[3],[4]]`, whose duplicate rows make the in-sample
angle computation raise (each duplicate is the other's nearest neighbour at
distance 0).  The re-fit fails — but only *after* overwriting the fitted
`_knn` model with the new training matrix, so the prior fitted state is
mutated by the failed call. -/
theorem C4_counterexample :
    (FastABOD.fit ({ params := { fpr := 0, n_neighbors := 2 } } : FastABODState)
      [[0], [1], [4]]).1 = .ok () ∧
    (FastABOD.fit
      (FastABOD.fit ({ params := { fpr := 0, n_neighbors := 2 } } : FastABODState)
        [[0], [1], [4]]).2
      [[0], [0], [3], [4]]).1
      = .error (Err.valueError ("X must not contain training samples")) ∧
    (FastABOD.fit
      (FastABOD.fit ({ params := { fpr := 0, n_neighbors := 2 } } : FastABODState)
        [[0], [1], [4]]).2
      [[0], [0], [3], [4]]).2._knn
      ≠ (FastABOD.fit ({ params := { fpr := 0, n_neighbors := 2 } } : FastABODState)
        [[0], [1], [4]]).2._knn := by
  refine ⟨?_, ?_, ?_⟩ <;>
    norm_num [FastABOD.fit, FastABOD.anomaly_score, check_array,
      kneighborsPoint, Kenchi._abof, abofPoint, abofTerm, exceptMap, pairs,
      sub, dot, sqDist, listVar, listMean, percentile, interpSorted, List.insertionSort,
      List.orderedInsert, Except.map]

/-- **C4 (amended).**  A failed `fit` never touches the cached in-sample
scores or the threshold, and a validation failure leaves the instance fully
untouched; but a failure during the in-sample score computation happens
*after* the `_knn` model attribute has been overwritten, so fit is not
all-or-nothing: on such a failure the new model coexists with the stale
scores and threshold. -/
theorem C4_fit_failure_mutation_boundary (s : FastABODState) (X : Mat)
    (e : Err) (h : (FastABOD.fit s X).1 = .error e) :
    (FastABOD.fit s X).2.params = s.params ∧
    (FastABOD.fit s X).2.y_score_ = s.y_score_ ∧
    (FastABOD.fit s X).2.threshold_ = s.threshold_ ∧
    (∀ e', check_array X = .error e' → (FastABOD.fit s X).2 = s) := by
  exact fastabod_fit_error_fields h

/-- Witness for C4 at the concrete failing re-fit of the counterexample. -/
theorem C4_witness :
    (FastABOD.fit
        (FastABOD.fit ({ params := { fpr := 0, n_neighbors := 2 } } : FastABODState)
          [[0], [1], [4]]).2 [[0], [0], [3], [4]]).1
      = .error (Err.valueError ("X must not contain training samples")) ∧
    ((FastABOD.fit
        (FastABOD.fit ({ params := { fpr := 0, n_neighbors := 2 } } : FastABODState)
          [[0], [1], [4]]).2 [[0], [0], [3], [4]]).2.y_score_
      = (FastABOD.fit ({ params := { fpr := 0, n_neighbors := 2 } } : FastABODState)
          [[0], [1], [4]]).2.y_score_ ∧
     (FastABOD.fit
        (FastABOD.fit ({ params := { fpr := 0, n_neighbors := 2 } } : FastABODState)
          [[0], [1], [4]]).2 [[0], [0], [3], [4]]).2.threshold_
      = (FastABOD.fit ({ params := { fpr := 0, n_neighbors := 2 } } : FastABODState)
          [[0], [1], [4]]).2.threshold_) := by
  have h : (FastABOD.fit
      (FastABOD.fit ({ params := { fpr := 0, n_neighbors := 2 } } : FastABODState)
        [[0], [1], [4]]).2 [[0], [0], [3], [4]]).1
      = .error (Err.valueError ("X must not contain training samples")) := by
    norm_num [FastABOD.fit, FastABOD.anomaly_score, check_array,
      kneighborsPoint, Kenchi._abof, abofPoint, abofTerm, exceptMap, pairs,
      sub, dot, sqDist, listVar, listMean, percentile, interpSorted, List.insertionSort,
      List.orderedInsert, Except.map]
  exact ⟨h, (C4_fit_failure_mutation_boundary _ _ _ h).2.1,
    (C4_fit_failure_mutation_boundary _ _ _ h).2.2.1⟩

/-! ## Claim C5 -/

/-- **C5 counterexample.**  The claim states that on a detector whose `fit`
has not yet *succeeded*, any `anomaly_score` call raises a not-fitted
error.  Here a fresh `FastABOD` instance is fitted on data containing a
duplicated row: `fit` fails (so it has never succeeded), yet the failed fit
already created the `_knn` attribute, and a subsequent
`anomaly_score([[10,0]])` passes the `check_is_fitted(self, '_knn')` guard
and returns a score vector instead of raising. -/
theorem C5_counterexample :
    (FastABOD.fit ({ params := { fpr := 0, n_neighbors := 2 } } : FastABODState)
      [[0, 0], [0, 0], [3, 0], [4, 0]]).1
      = .error (Err.valueError ("X must not contain training samples")) ∧
    FastABOD.anomaly_score
      (FastABOD.fit ({ params := { fpr := 0, n_neighbors := 2 } } : FastABODState)
        [[0, 0], [0, 0], [3, 0], [4, 0]]).2
      (some [[10, 0]]) = .ok [0] := by
  constructor <;>
    norm_num [FastABOD.fit, FastABOD.anomaly_score, check_array,
      kneighborsPoint, Kenchi._abof, abofPoint, abofTerm, exceptMap, pairs,
      sub, dot, sqDist, listVar, listMean, percentile, interpSorted, List.insertionSort,
      List.orderedInsert, Except.map]

/-- **C5 (amended).**  On a freshly constructed detector of any family — no
`fit` call attempted yet — every `anomaly_score` and `predict` call raises
the not-fitted error; and `predict` keeps raising it after a failed
`FastABOD.fit` from a fresh state, because the threshold is only assigned
at the very end of `fit`.  (After a failed fit that got past model
assignment, `anomaly_score` may succeed — see the counterexample.) -/
theorem C5_score_predict_before_fit_raise (sqrtQ : ℚ → ℚ) :
    (∀ pr s, FastABOD.init pr = .ok s → ∀ X?,
      FastABOD.anomaly_score s X? = .error Err.notFittedError ∧
      FastABOD.predict s X? = .error Err.notFittedError) ∧
    (∀ pr s, KDE.init pr = .ok s → ∀ X?,
      KDE.anomaly_score s X? = .error Err.notFittedError ∧
      KDE.predict s X? = .error Err.notFittedError) ∧
    (∀ pr s, Gaussian.init pr = .ok s → ∀ X?,
      Gaussian.anomaly_score s X? = .error Err.notFittedError ∧
      Gaussian.predict s X? = .error Err.notFittedError) ∧
    (∀ pr s, GMM.init pr = .ok s → ∀ X?,
      GMM.anomaly_score s X? = .error Err.notFittedError ∧
      GMM.predict s X? = .error Err.notFittedError) ∧
    (∀ pr s, VMF.init pr = .ok s → ∀ X?,
      VMF.anomaly_score sqrtQ s X? = .error Err.notFittedError ∧
      VMF.predict sqrtQ s X? = .error Err.notFittedError) ∧
    (∀ pr s X e, FastABOD.init pr = .ok s → (FastABOD.fit s X).1 = .error e →
      ∀ X?, FastABOD.predict (FastABOD.fit s X).2 X? = .error Err.notFittedError) := by
  refine ⟨?_, ?_, ?_, ?_, ?_, ?_⟩
  · intro pr s h X?
    obtain rfl := fastabod_init_ok h
    exact ⟨rfl, rfl⟩
  · intro pr s h X?
    obtain rfl := kde_init_ok h
    exact ⟨rfl, rfl⟩
  · intro pr s h X?
    obtain rfl := gaussian_init_ok h
    exact ⟨rfl, rfl⟩
  · intro pr s h X?
    obtain rfl := gmm_init_ok h
    exact ⟨rfl, rfl⟩
  · intro pr s h X?
    obtain rfl := vmf_init_ok h
    exact ⟨rfl, rfl⟩
  · intro pr s X e hinit hfit X?
    obtain rfl := fastabod_init_ok hinit
    have ht := (fastabod_fit_error_fields hfit).2.2.1
    unfold FastABOD.predict DetectorMixin.predict
    rw [ht]

/-- Witness for C5 applying the theorem on concrete fresh instances of each
family (and the concrete failed fit of the counterexample data shifted by
one: duplicates at `[[1],[1],[5]]`). -/
theorem C5_witness :
    (FastABOD.init { n_neighbors := 2 } =
      .ok ({ params := { n_neighbors := 2 } } : FastABODState)) ∧
    FastABOD.anomaly_score ({ params := { n_neighbors := 2 } } : FastABODState)
      none = .error Err.notFittedError ∧
    FastABOD.predict ({ params := { n_neighbors := 2 } } : FastABODState)
      (some [[1]]) = .error Err.notFittedError ∧
    (KDE.init {} = .ok ({ params := {} } : KDEState)) ∧
    KDE.anomaly_score ({ params := {} } : KDEState) none =
      .error Err.notFittedError ∧
    (Gaussian.init {} = .ok ({ params := {} } : GaussianState)) ∧
    Gaussian.predict ({ params := {} } : GaussianState) (some [[1]]) =
      .error Err.notFittedError ∧
    (GMM.init {} = .ok ({ params := {} } : GMMState)) ∧
    GMM.anomaly_score ({ params := {} } : GMMState) none =
      .error Err.notFittedError ∧
    (VMF.init {} = .ok ({ params := {} } : VMFState)) ∧
    VMF.predict (fun q => q) ({ params := {} } : VMFState) none =
      .error Err.notFittedError ∧
    ((FastABOD.fit ({ params := { fpr := 0, n_neighbors := 2 } } : FastABODState)
        [[1], [1], [5]]).1
      = .error (Err.valueError ("X must not contain training samples")) ∧
     FastABOD.predict
       (FastABOD.fit ({ params := { fpr := 0, n_neighbors := 2 } } : FastABODState)
         [[1], [1], [5]]).2 (some [[7]]) = .error Err.notFittedError) := by
  have hinit : FastABOD.init ({ fpr := 0, n_neighbors := 2 } : FastABODParams) =
      .ok ({ params := { fpr := 0, n_neighbors := 2 } } : FastABODState) := by
    norm_num [FastABOD.init, FastABOD.check_params, Except.map]
  have hfit : (FastABOD.fit ({ params := { fpr := 0, n_neighbors := 2 } } : FastABODState)
      [[1], [1], [5]]).1
      = .error (Err.valueError ("X must not contain training samples")) := by
    norm_num [FastABOD.fit, FastABOD.anomaly_score, check_array,
      kneighborsPoint, Kenchi._abof, abofPoint, abofTerm, exceptMap, pairs,
      sub, dot, sqDist, listVar, listMean, percentile, interpSorted, List.insertionSort,
      List.orderedInsert, Except.map]
  refine ⟨by norm_num [FastABOD.init, FastABOD.check_params, Except.map],
    ((C5_score_predict_before_fit_raise (fun q => q)).1
      ({ n_neighbors := 2 } : FastABODParams)
      ({ params := { n_neighbors := 2 } } : FastABODState)
      (by norm_num [FastABOD.init, FastABOD.check_params, Except.map]) none).1,
    ((C5_score_predict_before_fit_raise (fun q => q)).1
      ({ n_neighbors := 2 } : FastABODParams)
      ({ params := { n_neighbors := 2 } } : FastABODState)
      (by norm_num [FastABOD.init, FastABOD.check_params, Except.map]) (some [[1]])).2,
    by norm_num [KDE.init, KDE.check_params, VALID_KERNELS, Except.map],
    ((C5_score_predict_before_fit_raise (fun q => q)).2.1
      ({} : KDEParams) ({ params := {} } : KDEState)
      (by norm_num [KDE.init, KDE.check_params, VALID_KERNELS, Except.map]) none).1,
    by norm_num [Gaussian.init, Gaussian.check_params, Except.map],
    ((C5_score_predict_before_fit_raise (fun q => q)).2.2.1
      ({} : GaussianParams) ({ params := {} } : GaussianState)
      (by norm_num [Gaussian.init, Gaussian.check_params, Except.map]) (some [[1]])).2,
    by norm_num [GMM.init, GMM.check_params, VALID_COVARIANCE_TYPES, Except.map],
    ((C5_score_predict_before_fit_raise (fun q => q)).2.2.2.1
      ({} : GMMParams) ({ params := {} } : GMMState)
      (by norm_num [GMM.init, GMM.check_params, VALID_COVARIANCE_TYPES, Except.map]) none).1,
    by norm_num [VMF.init, VMF.check_params, Except.map],
    ((C5_score_predict_before_fit_raise (fun q => q)).2.2.2.2.1
      ({} : VMFParams) ({ params := {} } : VMFState)
      (by norm_num [VMF.init, VMF.check_params, Except.map]) none).2,
    hfit,
    (C5_score_predict_before_fit_raise (fun q => q)).2.2.2.2.2
      ({ fpr := 0, n_neighbors := 2 } : FastABODParams)
      ({ params := { fpr := 0, n_neighbors := 2 } } : FastABODState)
      [[1], [1], [5]] (Err.valueError ("X must not contain training samples"))
      hinit hfit (some [[7]])⟩

/-! ## Claim C3 (counterexample part) -/

/-- **C3 counterexample.**  The claim states that decreasing `fpr` toward 0
never *decreases* the number of training points flagged, and that `fpr=0`
flags a non-trivial fraction.  Both directions are backwards for the
code: the threshold is the `100*(1-fpr)` empirical percentile of the
in-sample scores, so a *smaller* `fpr` gives a *higher* percentile, interpSorted, a
higher threshold, and *fewer* flagged points.  Concretely, with a mixture
detector whose fitted model scores the training rows `[0,1,2,3]`:
`fpr=1/2` flags two of the four training points, while `fpr=0` (threshold =
maximum in-sample score) flags none — the count decreases from 2 to 0. -/
theorem C3_counterexample :
    (GMM.fit (fun _ Q => Q.map (fun r => -(r.headD 0)))
      ({ params := { fpr := 1/2 } } : GMMState) [[0], [1], [2], [3]]).1 = .ok () ∧
    (GMM.fit (fun _ Q => Q.map (fun r => -(r.headD 0)))
      ({ params := { fpr := 0 } } : GMMState) [[0], [1], [2], [3]]).1 = .ok () ∧
    GMM.predict
      (GMM.fit (fun _ Q => Q.map (fun r => -(r.headD 0)))
        ({ params := { fpr := 1/2 } } : GMMState) [[0], [1], [2], [3]]).2
      (some [[0], [1], [2], [3]]) = .ok [0, 0, 1, 1] ∧
    GMM.predict
      (GMM.fit (fun _ Q => Q.map (fun r => -(r.headD 0)))
        ({ params := { fpr := 0 } } : GMMState) [[0], [1], [2], [3]]).2
      (some [[0], [1], [2], [3]]) = .ok [0, 0, 0, 0] := by
  have hf : (⌊(3 : ℚ) / 2⌋ : ℤ) = 1 := by
    rw [Int.floor_eq_iff] <;> norm_num
  have ht : Int.toNat 3 = 3 := rfl
  refine ⟨?_, ?_, ?_, ?_⟩ <;>
    norm_num [GMM.fit, GMM.anomaly_score, GMM.predict, DetectorMixin.predict,
      predictFromScores, check_array, percentile, interpSorted, listMean, hf, ht,
      List.insertionSort, List.orderedInsert, Except.map]

/-! ## Claim C6 -/

/-- **C6.**  For a fitted detector (`threshold_` present) whose score
computation on `X` succeeds with vector `ys`, the shared
`DetectorMixin.predict` returns exactly the 0/1 vector that is 1 where the
score strictly exceeds the threshold and 0 elsewhere; the output length
equals the score-vector length, and for `FastABOD.anomaly_score` the score
vector in turn has one entry per row of `X`, so `predict(X)` has one entry
per sample. -/
theorem C6_predict_indicator (t : ℚ) (score : Option Mat → Except Err Vec)
    (X : Mat) (ys : Vec) (h : score (some X) = .ok ys) :
    DetectorMixin.predict (some t) score (some X) =
      .ok (predictFromScores ys t) ∧
    (predictFromScores ys t).length = ys.length ∧
    (∀ v ∈ predictFromScores ys t, v = 0 ∨ v = 1) ∧
    (∀ i, i < ys.length →
      ((predictFromScores ys t).getD i 0 = 1 ↔ t < ys.getD i 0)) ∧
    (∀ (s : FastABODState) (fitX X1 : Mat) (ys1 : Vec),
      s._knn = some fitX → FastABOD.anomaly_score s (some X1) = .ok ys1 →
      ys1.length = X1.length) := by
  refine ⟨?_, ?_, ?_, ?_, ?_⟩
  · unfold DetectorMixin.predict
    rw [h]
    rfl
  · exact List.length_map ys _
  · intro v hv
    obtain ⟨y, _, rfl⟩ := List.mem_map.1 hv
    by_cases hy : t < y <;> simp [hy]
  · intro i hi
    unfold predictFromScores
    rw [getD_map_lt _ ys i hi 0 0]
    by_cases hy : t < ys.getD i 0 <;> simp [hy]
  · intro s fitX X1 ys1 hk ha
    cases hc : check_array X1 with
    | error e =>
      rw [fastabod_score_some_check_error hk hc] at ha
      cases ha
    | ok X2 =>
      obtain rfl := check_array_ok _ _ hc
      rw [fastabod_score_some_eq hk hc] at ha
      obtain ⟨v, hb, rfl⟩ := except_map_ok ha
      have hlen := exceptMap_ok_length hb
      simp only [List.length_map, List.length_zip, List.length_map,
        min_self] at hlen ⊢
      exact hlen

/-- Witness for C6 at a concrete threshold, score function and input. -/
theorem C6_witness :
    ((fun X? => if X? = some [[5], [7]] then Except.ok [(9 : ℚ), 1]
        else Except.error Err.notFittedError) (some [[5], [7]]) =
      Except.ok [(9 : ℚ), 1]) ∧
    DetectorMixin.predict (some 2)
      (fun X? => if X? = some [[5], [7]] then Except.ok [(9 : ℚ), 1]
        else Except.error Err.notFittedError) (some [[5], [7]]) =
      .ok (predictFromScores [9, 1] 2) ∧
    predictFromScores [9, 1] 2 = [1, 0] := by
  have h := C6_predict_indicator 2
    (fun X? => if X? = some [[5], [7]] then Except.ok [(9 : ℚ), 1]
      else Except.error Err.notFittedError) [[5], [7]] [9, 1] (by norm_num)
  exact ⟨by norm_num, h.1, by norm_num [predictFromScores]⟩

/-! ## Claim C10 -/

/-- **C10.**  Constructing any detector with a hyperparameter outside its
stated domain raises a `ValueError` from `check_params`, which `__init__`
invokes before returning — so the error is raised at construction time and
no instance is produced for `fit` to be called on. -/
theorem C10_construction_validation :
    (∀ pr : FastABODParams, pr.fpr < 0 ∨ 1 < pr.fpr →
      ∃ m, FastABOD.init pr = .error (Err.valueError m)) ∧
    (∀ pr : FastABODParams, pr.n_neighbors ≤ 1 →
      ∃ m, FastABOD.init pr = .error (Err.valueError m)) ∧
    (∀ pr : FastABODParams, pr.p < 1 →
      ∃ m, FastABOD.init pr = .error (Err.valueError m)) ∧
    (∀ pr : KDEParams, pr.fpr < 0 ∨ 1 < pr.fpr →
      ∃ m, KDE.init pr = .error (Err.valueError m)) ∧
    (∀ pr : KDEParams, pr.bandwidth ≤ 0 →
      ∃ m, KDE.init pr = .error (Err.valueError m)) ∧
    (∀ pr : KDEParams, pr.kernel ∉ VALID_KERNELS →
      ∃ m, KDE.init pr = .error (Err.valueError m)) ∧
    (∀ pr : GaussianParams, pr.fpr < 0 ∨ 1 < pr.fpr →
      ∃ m, Gaussian.init pr = .error (Err.valueError m)) ∧
    (∀ pr : GaussianParams, pr.alpha < 0 ∨ 1 < pr.alpha →
      ∃ m, Gaussian.init pr = .error (Err.valueError m)) ∧
    (∀ pr : GaussianParams, pr.max_iter ≤ 0 →
      ∃ m, Gaussian.init pr = .error (Err.valueError m)) ∧
    (∀ pr : GaussianParams, pr.tol < 0 →
      ∃ m, Gaussian.init pr = .error (Err.valueError m)) ∧
    (∀ pr : GMMParams, pr.fpr < 0 ∨ 1 < pr.fpr →
      ∃ m, GMM.init pr = .error (Err.valueError m)) ∧
    (∀ pr : GMMParams, pr.covariance_type ∉ VALID_COVARIANCE_TYPES →
      ∃ m, GMM.init pr = .error (Err.valueError m)) ∧
    (∀ pr : GMMParams, pr.n_components ≤ 0 →
      ∃ m, GMM.init pr = .error (Err.valueError m)) ∧
    (∀ pr : VMFParams, pr.fpr < 0 ∨ 1 < pr.fpr →
      ∃ m, VMF.init pr = .error (Err.valueError m)) := by
  refine ⟨?_, ?_, ?_, ?_, ?_, ?_, ?_, ?_, ?_, ?_, ?_, ?_, ?_, ?_⟩ <;>
    intro pr h <;>
    simp only [FastABOD.init, FastABOD.check_params, KDE.init,
      KDE.check_params, Gaussian.init, Gaussian.check_params, GMM.init,
      GMM.check_params, VMF.init, VMF.check_params] <;>
    split_ifs <;>
    first
      | exact ⟨_, rfl⟩
      | (exfalso; tauto)

/-- Witness for C10: one concrete out-of-domain construction per listed
constraint. -/
theorem C10_witness :
    ((1 : ℚ) < 11/10 ∧
      ∃ m, FastABOD.init { fpr := 11/10 } = .error (Err.valueError m)) ∧
    ((1 : ℤ) ≤ 1 ∧
      ∃ m, FastABOD.init { n_neighbors := 1 } = .error (Err.valueError m)) ∧
    ((1/2 : ℚ) < 1 ∧
      ∃ m, FastABOD.init { p := 1/2 } = .error (Err.valueError m)) ∧
    ((-1/10 : ℚ) < 0 ∧
      ∃ m, KDE.init { fpr := -1/10 } = .error (Err.valueError m)) ∧
    ((0 : ℚ) ≤ 0 ∧
      ∃ m, KDE.init { bandwidth := 0 } = .error (Err.valueError m)) ∧
    ("box" ∉ VALID_KERNELS ∧
      ∃ m, KDE.init { kernel := "box" } = .error (Err.valueError m)) ∧
    ((1 : ℚ) < 2 ∧
      ∃ m, Gaussian.init { fpr := 2 } = .error (Err.valueError m)) ∧
    ((1 : ℚ) < 3/2 ∧
      ∃ m, Gaussian.init { alpha := 3/2 } = .error (Err.valueError m)) ∧
    ((0 : ℤ) ≤ 0 ∧
      ∃ m, Gaussian.init { max_iter := 0 } = .error (Err.valueError m)) ∧
    ((-1 : ℚ) < 0 ∧
      ∃ m, Gaussian.init { tol := -1 } = .error (Err.valueError m)) ∧
    ((1 : ℚ) < 11/10 ∧
      ∃ m, GMM.init { fpr := 11/10 } = .error (Err.valueError m)) ∧
    ("oval" ∉ VALID_COVARIANCE_TYPES ∧
      ∃ m, GMM.init { covariance_type := "oval" } = .error (Err.valueError m)) ∧
    ((0 : ℤ) ≤ 0 ∧
      ∃ m, GMM.init { n_components := 0 } = .error (Err.valueError m)) ∧
    ((-1/10 : ℚ) < 0 ∧
      ∃ m, VMF.init { fpr := -1/10 } = .error (Err.valueError m)) := by
  refine ⟨⟨by norm_num, C10_construction_validation.1 _ (by norm_num)⟩,
    ⟨le_refl 1, C10_construction_validation.2.1 _ (le_refl 1)⟩,
    ⟨by norm_num, C10_construction_validation.2.2.1 _ (by norm_num)⟩,
    ⟨by norm_num, C10_construction_validation.2.2.2.1 _ (by norm_num)⟩,
    ⟨le_refl 0, C10_construction_validation.2.2.2.2.1 _ (le_refl 0)⟩,
    ⟨by decide, C10_construction_validation.2.2.2.2.2.1 _ (by decide)⟩,
    ⟨by norm_num, C10_construction_validation.2.2.2.2.2.2.1 _ (by norm_num)⟩,
    ⟨by norm_num, C10_construction_validation.2.2.2.2.2.2.2.1 _ (by norm_num)⟩,
    ⟨le_refl 0, C10_construction_validation.2.2.2.2.2.2.2.2.1 _ (le_refl 0)⟩,
    ⟨by norm_num, C10_construction_validation.2.2.2.2.2.2.2.2.2.1 _ (by norm_num)⟩,
    ⟨by norm_num, C10_construction_validation.2.2.2.2.2.2.2.2.2.2.1 _ (by norm_num)⟩,
    ⟨by decide,
      C10_construction_validation.2.2.2.2.2.2.2.2.2.2.2.1 _ (by decide)⟩,
    ⟨le_refl 0, C10_construction_validation.2.2.2.2.2.2.2.2.2.2.2.2.1 _ (le_refl 0)⟩,
    ⟨by norm_num, C10_construction_validation.2.2.2.2.2.2.2.2.2.2.2.2.2 _ (by norm_num)⟩⟩

/-! ## Claim C2 -/

/-- **C2.**  After a successful `fit`, `anomaly_score(None)` returns
exactly the cached in-sample score vector `y_score_`.  For the
kernel-density, Gaussian, mixture and directional detectors the `X is None`
branch literally returns the stored attribute; `FastABOD.anomaly_score(None)`
re-runs the training-set scoring against the stored neighbour index, which
is deterministic and reproduces the cached vector exactly. -/
theorem C2_score_none_returns_cached :
    (∀ (B : Mat → Mat → Vec) (s s' : KDEState) (X : Mat),
      KDE.fit B s X = (.ok (), s') →
      ∃ ys, s'.y_score_ = some ys ∧ KDE.anomaly_score s' none = .ok ys) ∧
    (∀ (glassoFit : Mat → GLModel)
      (chi2fit : Vec → ℚ × ℚ × ℚ) (chi2ppf : ℚ → ℚ → ℚ → ℚ → ℚ)
      (logQ : ℚ → ℚ) (piQ : ℚ) (s s' : GaussianState) (X : Mat),
      Gaussian.fit glassoFit chi2fit chi2ppf logQ piQ s X = (.ok (), s') →
      ∃ ys, s'.y_score_ = some ys ∧ Gaussian.anomaly_score s' none = .ok ys) ∧
    (∀ (B : Mat → Mat → Vec) (s s' : GMMState) (X : Mat),
      GMM.fit B s X = (.ok (), s') →
      ∃ ys, s'.y_score_ = some ys ∧ GMM.anomaly_score s' none = .ok ys) ∧
    (∀ (sqrtQ : ℚ → ℚ) (chi2fit : Vec → ℚ × ℚ × ℚ)
      (chi2ppf : ℚ → ℚ → ℚ → ℚ → ℚ) (s s' : VMFState) (X : Mat),
      VMF.fit sqrtQ chi2fit chi2ppf s X = (.ok (), s') →
      ∃ ys, s'.y_score_ = some ys ∧ VMF.anomaly_score sqrtQ s' none = .ok ys) ∧
    (∀ (s s' : FastABODState) (X : Mat),
      FastABOD.fit s X = (.ok (), s') →
      ∃ ys, s'.y_score_ = some ys ∧ FastABOD.anomaly_score s' none = .ok ys) := by
  refine ⟨?_, ?_, ?_, ?_, ?_⟩
  · intro B s s' X h
    obtain ⟨X1, ys, hc, ha, rfl⟩ := kde_fit_ok h
    exact ⟨ys, rfl, rfl⟩
  · intro glassoFit chi2fit chi2ppf logQ piQ s s' X h
    obtain ⟨X1, ys, Y, hc, hp, hg, hy, hth, hY⟩ := gaussian_fit_ok h
    refine ⟨ys, hy, ?_⟩
    unfold Gaussian.anomaly_score
    simp only [hg, hy]
  · intro B s s' X h
    obtain ⟨X1, ys, hc, ha, rfl⟩ := gmm_fit_ok h
    exact ⟨ys, rfl, rfl⟩
  · intro sqrtQ chi2fit chi2ppf s s' X h
    obtain ⟨ys, u, hy, hth, hp, hn⟩ := vmf_fit_ok h
    refine ⟨ys, hy, ?_⟩
    unfold VMF.anomaly_score
    simp only [hn, hy]
  · intro s s' X h
    obtain ⟨X1, ys, hc, ha, rfl⟩ := fastabod_fit_ok h
    refine ⟨ys, rfl, ?_⟩
    rw [fastabod_score_none_eq X1 rfl]
    rw [fastabod_score_none_eq X1 rfl] at ha
    exact ha

/-- Witness for C2 at concrete backends and training data for every
family. -/
theorem C2_witness :
    (KDE.fit (fun _ Q => Q.map (fun _ => 0)) ({ params := {} } : KDEState)
        [[1]] =
      (.ok (), (KDE.fit (fun _ Q => Q.map (fun _ => 0))
        ({ params := {} } : KDEState) [[1]]).2) ∧
     ∃ ys, (KDE.fit (fun _ Q => Q.map (fun _ => 0))
        ({ params := {} } : KDEState) [[1]]).2.y_score_ = some ys ∧
      KDE.anomaly_score (KDE.fit (fun _ Q => Q.map (fun _ => 0))
        ({ params := {} } : KDEState) [[1]]).2 none = .ok ys) ∧
    (GMM.fit (fun _ Q => Q.map (fun _ => 0)) ({ params := {} } : GMMState)
        [[1]] =
      (.ok (), (GMM.fit (fun _ Q => Q.map (fun _ => 0))
        ({ params := {} } : GMMState) [[1]]).2) ∧
     ∃ ys, (GMM.fit (fun _ Q => Q.map (fun _ => 0))
        ({ params := {} } : GMMState) [[1]]).2.y_score_ = some ys ∧
      GMM.anomaly_score (GMM.fit (fun _ Q => Q.map (fun _ => 0))
        ({ params := {} } : GMMState) [[1]]).2 none = .ok ys) ∧
    (FastABOD.fit ({ params := { fpr := 0, n_neighbors := 2 } } : FastABODState)
        [[0], [1], [4]] =
      (.ok (), (FastABOD.fit
        ({ params := { fpr := 0, n_neighbors := 2 } } : FastABODState)
        [[0], [1], [4]]).2) ∧
     ∃ ys, (FastABOD.fit
        ({ params := { fpr := 0, n_neighbors := 2 } } : FastABODState)
        [[0], [1], [4]]).2.y_score_ = some ys ∧
      FastABOD.anomaly_score (FastABOD.fit
        ({ params := { fpr := 0, n_neighbors := 2 } } : FastABODState)
        [[0], [1], [4]]).2 none = .ok ys) := by
  have hkde : KDE.fit (fun _ Q => Q.map (fun _ => 0))
      ({ params := {} } : KDEState) [[1]] =
      (.ok (), (KDE.fit (fun _ Q => Q.map (fun _ => 0))
        ({ params := {} } : KDEState) [[1]]).2) := by
    refine Prod.ext_iff.mpr ⟨?_, rfl⟩
    norm_num [KDE.fit, KDE.anomaly_score, check_array, percentile, interpSorted,
      List.insertionSort, List.orderedInsert, Except.map]
  have hgmm : GMM.fit (fun _ Q => Q.map (fun _ => 0))
      ({ params := {} } : GMMState) [[1]] =
      (.ok (), (GMM.fit (fun _ Q => Q.map (fun _ => 0))
        ({ params := {} } : GMMState) [[1]]).2) := by
    refine Prod.ext_iff.mpr ⟨?_, rfl⟩
    norm_num [GMM.fit, GMM.anomaly_score, check_array, percentile, interpSorted,
      List.insertionSort, List.orderedInsert, Except.map]
  have habod : FastABOD.fit
      ({ params := { fpr := 0, n_neighbors := 2 } } : FastABODState)
      [[0], [1], [4]] =
      (.ok (), (FastABOD.fit
        ({ params := { fpr := 0, n_neighbors := 2 } } : FastABODState)
        [[0], [1], [4]]).2) := by
    refine Prod.ext_iff.mpr ⟨?_, rfl⟩
    norm_num [FastABOD.fit, FastABOD.anomaly_score, check_array,
      kneighborsPoint, Kenchi._abof, abofPoint, abofTerm, exceptMap, pairs,
      sub, dot, sqDist, listVar, listMean, percentile, interpSorted, List.insertionSort,
      List.orderedInsert, Except.map]
  exact ⟨⟨hkde, C2_score_none_returns_cached.1 _ _ _ _ hkde⟩,
    ⟨hgmm, C2_score_none_returns_cached.2.2.1 _ _ _ _ hgmm⟩,
    ⟨habod, C2_score_none_returns_cached.2.2.2.2 _ _ _ habod⟩⟩

/-! ## Claim C9 -/

/-- **C9.**  After a successful `fit`, the stored scalar threshold equals
the `100*(1-fpr)` empirical percentile of the cached in-sample score vector
for the angle-based, kernel-density, and Gaussian-mixture detectors, and
equals the external chi-squared quantile `ppf(1-fpr, df, loc, scale)` at
the parameters `(df, loc, scale) = chi2.fit(y_score_)` fitted to the
in-sample scores for the Gaussian (graphical-lasso) and von Mises–Fisher
detectors. -/
theorem C9_threshold_calibration :
    (∀ (s s' : FastABODState) (X : Mat),
      FastABOD.fit s X = (.ok (), s') →
      ∃ ys, s'.y_score_ = some ys ∧
        s'.threshold_ = some (percentile ys (100 * (1 - s'.params.fpr)))) ∧
    (∀ (B : Mat → Mat → Vec) (s s' : KDEState) (X : Mat),
      KDE.fit B s X = (.ok (), s') →
      ∃ ys, s'.y_score_ = some ys ∧
        s'.threshold_ = some (percentile ys (100 * (1 - s'.params.fpr)))) ∧
    (∀ (B : Mat → Mat → Vec) (s s' : GMMState) (X : Mat),
      GMM.fit B s X = (.ok (), s') →
      ∃ ys, s'.y_score_ = some ys ∧
        s'.threshold_ = some (percentile ys (100 * (1 - s'.params.fpr)))) ∧
    (∀ (glassoFit : Mat → GLModel)
      (chi2fit : Vec → ℚ × ℚ × ℚ) (chi2ppf : ℚ → ℚ → ℚ → ℚ → ℚ)
      (logQ : ℚ → ℚ) (piQ : ℚ) (s s' : GaussianState) (X : Mat),
      Gaussian.fit glassoFit chi2fit chi2ppf logQ piQ s X = (.ok (), s') →
      ∃ ys, s'.y_score_ = some ys ∧
        s'.threshold_ = some (chi2ppf (1 - s'.params.fpr) (chi2fit ys).1
          (chi2fit ys).2.1 (chi2fit ys).2.2)) ∧
    (∀ (sqrtQ : ℚ → ℚ) (chi2fit : Vec → ℚ × ℚ × ℚ)
      (chi2ppf : ℚ → ℚ → ℚ → ℚ → ℚ) (s s' : VMFState) (X : Mat),
      VMF.fit sqrtQ chi2fit chi2ppf s X = (.ok (), s') →
      ∃ ys, s'.y_score_ = some ys ∧
        s'.threshold_ = some (chi2ppf (1 - s'.params.fpr) (chi2fit ys).1
          (chi2fit ys).2.1 (chi2fit ys).2.2)) := by
  refine ⟨?_, ?_, ?_, ?_, ?_⟩
  · intro s s' X h
    obtain ⟨X1, ys, hc, ha, rfl⟩ := fastabod_fit_ok h
    exact ⟨ys, rfl, rfl⟩
  · intro B s s' X h
    obtain ⟨X1, ys, hc, ha, rfl⟩ := kde_fit_ok h
    exact ⟨ys, rfl, rfl⟩
  · intro B s s' X h
    obtain ⟨X1, ys, hc, ha, rfl⟩ := gmm_fit_ok h
    exact ⟨ys, rfl, rfl⟩
  · intro glassoFit chi2fit chi2ppf logQ piQ s s' X h
    obtain ⟨X1, ys, Y, hc, hp, hg, hy, hth, hY⟩ := gaussian_fit_ok h
    rw [← hp] at hth
    exact ⟨ys, hy, hth⟩
  · intro sqrtQ chi2fit chi2ppf s s' X h
    obtain ⟨ys, u, hy, hth, hp, hn⟩ := vmf_fit_ok h
    rw [← hp] at hth
    exact ⟨ys, hy, hth⟩

/-- Witness for C9 at concrete backends and training data covering a
percentile family and a chi-squared family. -/
theorem C9_witness :
    (GMM.fit (fun _ Q => Q.map (fun r => -(r.headD 0)))
        ({ params := { fpr := 1/2 } } : GMMState) [[0], [1], [2], [3]] =
      (.ok (), (GMM.fit (fun _ Q => Q.map (fun r => -(r.headD 0)))
        ({ params := { fpr := 1/2 } } : GMMState) [[0], [1], [2], [3]]).2) ∧
     ∃ ys, (GMM.fit (fun _ Q => Q.map (fun r => -(r.headD 0)))
        ({ params := { fpr := 1/2 } } : GMMState) [[0], [1], [2], [3]]).2.y_score_
        = some ys ∧
      (GMM.fit (fun _ Q => Q.map (fun r => -(r.headD 0)))
        ({ params := { fpr := 1/2 } } : GMMState) [[0], [1], [2], [3]]).2.threshold_
        = some (percentile ys (100 * (1 - (GMM.fit
            (fun _ Q => Q.map (fun r => -(r.headD 0)))
            ({ params := { fpr := 1/2 } } : GMMState)
            [[0], [1], [2], [3]]).2.params.fpr)))) ∧
    (VMF.fit (fun _ => 1) (fun _ => (1, 2, 3)) (fun a b c d => a + b + c + d)
        ({ params := {} } : VMFState) [[1]] =
      (.ok (), (VMF.fit (fun _ => 1) (fun _ => (1, 2, 3))
        (fun a b c d => a + b + c + d) ({ params := {} } : VMFState) [[1]]).2) ∧
     ∃ ys, (VMF.fit (fun _ => 1) (fun _ => (1, 2, 3))
        (fun a b c d => a + b + c + d)
        ({ params := {} } : VMFState) [[1]]).2.y_score_ = some ys ∧
      (VMF.fit (fun _ => 1) (fun _ => (1, 2, 3))
        (fun a b c d => a + b + c + d)
        ({ params := {} } : VMFState) [[1]]).2.threshold_
        = some ((fun a b c d => a + b + c + d) (1 - (VMF.fit (fun _ => 1)
            (fun _ => (1, 2, 3)) (fun a b c d => a + b + c + d)
            ({ params := {} } : VMFState) [[1]]).2.params.fpr)
          ((fun _ => ((1 : ℚ), (2 : ℚ), (3 : ℚ))) ys).1
          ((fun _ => ((1 : ℚ), (2 : ℚ), (3 : ℚ))) ys).2.1
          ((fun _ => ((1 : ℚ), (2 : ℚ), (3 : ℚ))) ys).2.2)) := by
  have hgmm : GMM.fit (fun _ Q => Q.map (fun r => -(r.headD 0)))
      ({ params := { fpr := 1/2 } } : GMMState) [[0], [1], [2], [3]] =
      (.ok (), (GMM.fit (fun _ Q => Q.map (fun r => -(r.headD 0)))
        ({ params := { fpr := 1/2 } } : GMMState) [[0], [1], [2], [3]]).2) := by
    refine Prod.ext_iff.mpr ⟨?_, rfl⟩
    norm_num [GMM.fit, GMM.anomaly_score, check_array, Except.map]
  have hvmf : VMF.fit (fun _ => 1) (fun _ => (1, 2, 3))
      (fun a b c d => a + b + c + d) ({ params := {} } : VMFState) [[1]] =
      (.ok (), (VMF.fit (fun _ => 1) (fun _ => (1, 2, 3))
        (fun a b c d => a + b + c + d) ({ params := {} } : VMFState) [[1]]).2) := by
    refine Prod.ext_iff.mpr ⟨?_, rfl⟩
    norm_num [VMF.fit, VMF.anomaly_score, check_array, normalizeRows,
      colMeans, matTranspose, listMean, dot, Except.map]
  exact ⟨⟨hgmm, C9_threshold_calibration.2.2.1 _ _ _ _ hgmm⟩,
    ⟨hvmf, C9_threshold_calibration.2.2.2.2 _ _ _ _ _ _ hvmf⟩⟩

/-! ## Claim C7 -/

/-- The spec's angle statistic for a query `p` and two neighbours `a`, `b`:
`(p−a)·(p−b) / (‖p−a‖² ‖p−b‖²)`.  Stated from the claim's own wording, to
be compared with the code's `(pa@pb)/(pa@pa)/(pb@pb)` over `pa = a−p`. -/
def specAngleTerm (p a b : Vec) : ℚ :=
  dot (sub p a) (sub p b) /
    (dot (sub p a) (sub p a) * dot (sub p b) (sub p b))

/-- The claim's score for one query point: the *negative* of the population
variance of the angle statistic over all unordered pairs `{a,b}` drawn from
the neighbour list. -/
def specAbodScore (p : Vec) (nbrs : List Vec) : ℚ :=
  -listVar ((pairs nbrs).map (fun ab => specAngleTerm p ab.1 ab.2))

theorem pairs_map {α β : Type} (f : α → β) (xs : List α) :
    pairs (xs.map f) = (pairs xs).map (Prod.map f f) := by
  induction xs with
  | nil => rfl
  | cons x xs ih =>
    simp only [List.map, pairs, ih, List.map_append, List.map_map]
    rfl

theorem abofTerm_ok {pa pb : Vec} {y : ℚ} (h : abofTerm pa pb = .ok y) :
    y = dot pa pb / dot pa pa / dot pb pb := by
  unfold abofTerm at h
  split at h
  · cases h
  · cases h
    rfl

theorem codeTerm_eq_specAngleTerm (p a b : Vec) :
    dot (sub a p) (sub b p) / dot (sub a p) (sub a p) / dot (sub b p) (sub b p)
      = specAngleTerm p a b := by
  unfold specAngleTerm
  rw [div_div, dot_sub_comm p a b, dot_sub_comm p a a, dot_sub_comm p b b]

theorem list_eq_of_getD {α : Type} {xs ys : List α} (d : α)
    (hl : xs.length = ys.length)
    (h : ∀ i, i < xs.length → xs.getD i d = ys.getD i d) : xs = ys := by
  induction xs generalizing ys with
  | nil => cases ys with
    | nil => rfl
    | cons y ys => cases hl
  | cons x xs ih =>
    cases ys with
    | nil => cases hl
    | cons y ys =>
      have h0 : x = y := h 0 (by simp)
      rw [h0, ih (by simpa using hl) (fun i hi => h (i + 1) (by simpa using hi))]

/-- The value produced by a successful `abofPoint` is the population
variance of the code's angle terms over the unordered pairs of difference
vectors. -/
theorem abofPoint_ok_value {fitX : Mat} {indP : List Nat} {p : Vec} {v : ℚ}
    (h : abofPoint fitX indP p = .ok v) :
    v = listVar ((pairs (indP.map (fun j => sub (fitX.getD j []) p))).map
      (fun ab => dot ab.1 ab.2 / dot ab.1 ab.1 / dot ab.2 ab.2)) := by
  unfold abofPoint at h
  obtain ⟨ts, hts, rfl⟩ := except_map_ok h
  congr 1
  apply list_eq_of_getD 0 (by
    rw [exceptMap_ok_length hts, List.length_map])
  intro i hi
  have hlen := exceptMap_ok_length hts
  have := exceptMap_ok_getD hts (([], []) : Vec × Vec) 0 i (by rw [hlen] at hi; exact hi)
  rw [abofTerm_ok this]
  rw [getD_map_lt _ _ i (by rw [hlen] at hi; exact hi) (([], []) : Vec × Vec) 0]

/-- **C7.**  For a fitted `FastABOD` state and a valid query matrix, every
entry of the score vector returned by `anomaly_score` equals the claim's
formula: the negative variance, over all unordered pairs `{a,b}` of the
point's `n_neighbors` nearest training rows, of
`(p−a)·(p−b) / (‖p−a‖² ‖p−b‖²)`. -/
theorem C7_abof_formula (s : FastABODState) (fitX X : Mat) (ys : Vec)
    (hk : s._knn = some fitX) (hc : check_array X = .ok X)
    (h : FastABOD.anomaly_score s (some X) = .ok ys)
    (i : Nat) (hi : i < X.length) :
    ys.getD i 0 =
      specAbodScore (X.getD i [])
        ((kneighborsPoint fitX s.params.n_neighbors.toNat none
          (X.getD i [])).map (fun j => fitX.getD j [])) := by
  rw [fastabod_score_some_eq hk hc] at h
  obtain ⟨v, hb, rfl⟩ := except_map_ok h
  have hindlen : (X.map (fun p =>
      kneighborsPoint fitX s.params.n_neighbors.toNat none p)).length
      = X.length := List.length_map _ _
  have hziplen : (X.zip (X.map (fun p =>
      kneighborsPoint fitX s.params.n_neighbors.toNat none p))).length
      = X.length := by
    rw [List.length_zip, hindlen, min_self]
  have hvlen : v.length = X.length := by
    rw [exceptMap_ok_length hb, hziplen]
  rw [getD_map_lt _ v i (by rw [hvlen]; exact hi) 0 0]
  have hpt := exceptMap_ok_getD hb (([], []) : Vec × List Nat) 0 i
    (by rw [hziplen]; exact hi)
  rw [getD_zip_lt X _ i hi (by rw [hindlen]; exact hi) [] []] at hpt
  rw [getD_map_lt _ X i hi [] []] at hpt
  dsimp only at hpt
  rw [abofPoint_ok_value hpt]
  unfold specAbodScore
  congr 1
  have hcomp : (fun j => sub (fitX.getD j []) (X.getD i [])) =
      ((fun a => sub a (X.getD i [])) ∘ (fun j => fitX.getD j [])) := rfl
  rw [hcomp, ← List.map_map, pairs_map, List.map_map]
  congr 1
  apply list_eq_of_getD (0 : ℚ) ?hl ?hp
  case hl => simp
  case hp =>
    intro m hm
    rw [List.length_map] at hm
    rw [getD_map_lt _ _ m hm (([], []) : Vec × Vec) (0 : ℚ),
      getD_map_lt _ _ m hm (([], []) : Vec × Vec) (0 : ℚ)]
    simp only [Function.comp, Prod.map]
    exact codeTerm_eq_specAngleTerm _ _ _

/-- Witness for C7 at a fitted state over training rows
`[[0],[1],[4]]` and query `[[2]]`. -/
theorem C7_witness :
    (({ params := { fpr := 0, n_neighbors := 2 }, _knn := some [[0], [1], [4]] } : FastABODState)._knn
      = some [[0], [1], [4]]) ∧
    check_array [[2]] = .ok [[2]] ∧
    FastABOD.anomaly_score
      ({ params := { fpr := 0, n_neighbors := 2 }, _knn := some [[0], [1], [4]] } : FastABODState)
      (some [[2]]) = .ok [0] ∧
    (0 : Nat) < 1 ∧
    ([0] : Vec).getD 0 0 =
      specAbodScore ([[2]].getD 0 [])
        ((kneighborsPoint [[0], [1], [4]]
          (({ fpr := 0, n_neighbors := 2 } : FastABODParams).n_neighbors.toNat)
          none ([[2]].getD 0 [])).map (fun j => [[0], [1], [4]].getD j [])) := by
  have hsc : FastABOD.anomaly_score
      ({ params := { fpr := 0, n_neighbors := 2 }, _knn := some [[0], [1], [4]] } : FastABODState)
      (some [[2]]) = .ok [0] := by
    norm_num [FastABOD.anomaly_score, check_array, kneighborsPoint,
      Kenchi._abof, abofPoint, abofTerm, exceptMap, pairs, sub, dot, sqDist,
      listVar, listMean, List.insertionSort, List.orderedInsert, Except.map]
  exact ⟨rfl, by norm_num [check_array], hsc, by norm_num,
    C7_abof_formula _ [[0], [1], [4]] [[2]] [0] rfl (by norm_num [check_array])
      hsc 0 (by norm_num)⟩

/-! ## Claim C8 -/

theorem except_map_error_rev {α β : Type} {f : α → β} {r : Except Err α}
    {e : Err} (h : Except.map f r = .error e) : r = .error e := by
  cases r with
  | error e' => simpa [Except.map] using h
  | ok x => simp [Except.map] at h

/-- The only error `abofPoint` can produce is the training-overlap
`ValueError`. -/
theorem abofPoint_error_unique {fitX : Mat} {indP : List Nat} {p : Vec}
    {e : Err} (h : abofPoint fitX indP p = .error e) :
    e = Err.valueError ("X must not contain training samples") := by
  unfold abofPoint at h
  have h' := except_map_error_rev h
  obtain ⟨ab, _, hab⟩ := exceptMap_error_mem h'
  unfold abofTerm at hab
  split at hab
  · cases hab
    rfl
  · cases hab

theorem filter_ne_none_range (n : Nat) :
    (List.range n).filter (fun j => (none : Option Nat) ≠ some j) =
      List.range n := by
  apply List.filter_eq_self.mpr
  intro a _
  simp

/-- If some training row coincides with the query point `p`, the first
nearest neighbour returned for `p` sits at squared distance zero. -/
theorem kneighbors_head_dist_zero {fitX : Mat} {p : Vec} {k : Nat}
    (hk1 : 1 ≤ k) (hmem : p ∈ fitX) :
    ∃ j0 rest, kneighborsPoint fitX k none p = j0 :: rest ∧
      sqDist p (fitX.getD j0 []) = 0 := by
  obtain ⟨⟨idx, hidx⟩, hget⟩ := List.mem_iff_get.1 hmem
  haveI hTot : IsTotal Nat
      (fun i j => sqDist p (fitX.getD i []) ≤ sqDist p (fitX.getD j [])) :=
    ⟨fun a b => le_total _ _⟩
  haveI hTrans : IsTrans Nat
      (fun i j => sqDist p (fitX.getD i []) ≤ sqDist p (fitX.getD j [])) :=
    ⟨fun a b c hab hbc => le_trans hab hbc⟩
  have hsorted := List.sorted_insertionSort
    (fun i j => sqDist p (fitX.getD i []) ≤ sqDist p (fitX.getD j []))
    (List.range fitX.length)
  have hlen : (List.insertionSort
      (fun i j => sqDist p (fitX.getD i []) ≤ sqDist p (fitX.getD j []))
      (List.range fitX.length)).length = fitX.length := by
    rw [List.length_insertionSort, List.length_range]
  cases hsl : List.insertionSort
      (fun i j => sqDist p (fitX.getD i []) ≤ sqDist p (fitX.getD j []))
      (List.range fitX.length) with
  | nil =>
    rw [hsl] at hlen
    exact absurd hidx (by rw [← hlen]; simp)
  | cons j0 rest =>
    have hdidx : sqDist p (fitX.getD idx []) = 0 := by
      rw [List.getD_eq_get _ _ hidx, hget]
      exact sqDist_self p
    have hmem' : idx ∈ j0 :: rest := by
      rw [← hsl, List.mem_insertionSort]
      exact List.mem_range.2 hidx
    have hd0 : sqDist p (fitX.getD j0 []) = 0 := by
      rcases List.mem_cons.1 hmem' with rfl | htl
      · exact hdidx
      · have hle : sqDist p (fitX.getD j0 []) ≤ sqDist p (fitX.getD idx []) := by
          rw [hsl] at hsorted
          exact List.rel_of_sorted_cons hsorted idx htl
        have hge : 0 ≤ sqDist p (fitX.getD j0 []) := dot_self_nonneg _
        rw [hdidx] at hle
        exact le_antisymm hle hge
    obtain ⟨k', rfl⟩ := Nat.exists_eq_add_of_le hk1
    refine ⟨j0, rest.take k', ?_, hd0⟩
    unfold kneighborsPoint
    rw [filter_ne_none_range, hsl, Nat.add_comm 1 k']
    rfl

/-- The neighbour list has exactly `k` entries when `k` does not exceed the
training-set size. -/
theorem kneighbors_length {fitX : Mat} {p : Vec} {k : Nat}
    (hnn : k ≤ fitX.length) :
    (kneighborsPoint fitX k none p).length = k := by
  unfold kneighborsPoint
  rw [filter_ne_none_range, List.length_take, List.length_insertionSort,
    List.length_range]
  exact min_eq_left hnn

/-- `abofPoint` errors whenever the first neighbour coincides with the
query point and there is at least one other neighbour to pair it with. -/
theorem abofPoint_error_of_head_zero {fitX : Mat} {p : Vec} {j0 j1 : Nat}
    {rest : List Nat} (hd0 : sqDist p (fitX.getD j0 []) = 0) :
    abofPoint fitX (j0 :: j1 :: rest) p =
      .error (Err.valueError ("X must not contain training samples")) := by
  apply except_map_error
  have hzero : dot (sub (fitX.getD j0 []) p) (sub (fitX.getD j0 []) p) = 0 := by
    rw [dot_sub_comm]
    exact hd0
  have hterm : abofTerm (sub (fitX.getD j0 []) p) (sub (fitX.getD j1 []) p) =
      .error (Err.valueError ("X must not contain training samples")) := by
    unfold abofTerm
    rw [if_pos (Or.inl hzero)]
  show exceptMap (fun ab => abofTerm ab.1 ab.2)
    ((sub (fitX.getD j0 []) p, sub (fitX.getD j1 []) p) ::
      ((j1 :: rest).map (fun j => sub (fitX.getD j []) p)).tail.map
        (fun y => (sub (fitX.getD j0 []) p, y)) ++
      pairs ((j1 :: rest).map (fun j => sub (fitX.getD j []) p))) = _
  simp only [exceptMap, hterm]

/-- **C8.**  For a fitted `FastABOD` detector (`n_neighbors ≥ 2` as its
constructor enforces, and not exceeding the training-set size so the
neighbour query itself is well posed), if any row of a valid query matrix
coincides exactly with a training row, `anomaly_score` fails with the
domain error `ValueError('X must not contain training samples')` rather
than returning scores: the duplicate is its own nearest neighbour at
squared distance zero, so the pair term evaluates `0.0/0.0`, an invalid
operation under `np.errstate(invalid='raise')` whose `FloatingPointError`
the method re-raises as the overlap `ValueError`. -/
theorem C8_overlap_domain_error (s : FastABODState) (fitX X : Mat) (i : Nat)
    (hk : s._knn = some fitX)
    (hn2 : 2 ≤ s.params.n_neighbors.toNat)
    (hnn : s.params.n_neighbors.toNat ≤ fitX.length)
    (hc : check_array X = .ok X) (hi : i < X.length)
    (hovl : X.getD i [] ∈ fitX) :
    FastABOD.anomaly_score s (some X) =
      .error (Err.valueError ("X must not contain training samples")) := by
  rw [fastabod_score_some_eq hk hc]
  apply except_map_error
  unfold Kenchi._abof
  have hindlen : (X.map (fun q =>
      kneighborsPoint fitX s.params.n_neighbors.toNat none q)).length
      = X.length := List.length_map _ _
  have hziplen : (X.zip (X.map (fun q =>
      kneighborsPoint fitX s.params.n_neighbors.toNat none q))).length
      = X.length := by
    rw [List.length_zip, hindlen, min_self]
  obtain ⟨j0, rest, hns, hd0⟩ :=
    kneighbors_head_dist_zero (le_trans (by norm_num) hn2) hovl
  have hklen := kneighbors_length (p := X.getD i []) hnn
  rw [hns] at hklen
  cases rest with
  | nil =>
    exfalso
    simp only [List.length_cons, List.length_nil] at hklen
    rw [← hklen] at hn2
    exact absurd hn2 (by norm_num)
  | cons j1 rest2 =>
    apply exceptMap_error_of_mem (x := (X.getD i [],
      kneighborsPoint fitX s.params.n_neighbors.toNat none (X.getD i [])))
    · have hmem := getD_mem (X.zip (X.map (fun q =>
        kneighborsPoint fitX s.params.n_neighbors.toNat none q))) i
        (by rw [hziplen]; exact hi) ([], [])
      rw [getD_zip_lt X _ i hi (by rw [hindlen]; exact hi) [] []] at hmem
      rw [getD_map_lt _ X i hi [] []] at hmem
      exact hmem
    · show abofPoint fitX
        (kneighborsPoint fitX s.params.n_neighbors.toNat none (X.getD i []))
        (X.getD i []) = _
      rw [hns]
      exact abofPoint_error_of_head_zero hd0
    · intro y _ e' h'
      exact abofPoint_error_unique h'

/-- Witness for C8: the fitted state over `[[0],[1],[4]]` queried at the
training row `[[1]]`. -/
theorem C8_witness :
    (({ params := { fpr := 0, n_neighbors := 2 }, _knn := some [[0], [1], [4]] } : FastABODState)._knn
      = some [[0], [1], [4]]) ∧
    2 ≤ (({ fpr := 0, n_neighbors := 2 } : FastABODParams).n_neighbors.toNat) ∧
    (({ fpr := 0, n_neighbors := 2 } : FastABODParams).n_neighbors.toNat)
      ≤ ([[0], [1], [4]] : Mat).length ∧
    check_array [[1]] = .ok [[1]] ∧ (0 : Nat) < 1 ∧
    ([[1]] : Mat).getD 0 [] ∈ ([[0], [1], [4]] : Mat) ∧
    FastABOD.anomaly_score
      ({ params := { fpr := 0, n_neighbors := 2 }, _knn := some [[0], [1], [4]] } : FastABODState)
      (some [[1]]) =
      .error (Err.valueError ("X must not contain training samples")) := by
  refine ⟨rfl, by norm_num, by norm_num, by norm_num [check_array],
    by norm_num, by norm_num, ?_⟩
  exact C8_overlap_domain_error _ [[0], [1], [4]] [[1]] 0 rfl (by norm_num)
    (by norm_num) (by norm_num [check_array]) (by norm_num) (by norm_num)

/-! ## Percentile monotonicity (for claim C3) -/

theorem sorted_getD_le {s : List ℚ} (hs : List.Sorted (· ≤ ·) s)
    {i j : Nat} (hij : i ≤ j) (hj : j < s.length) :
    s.getD i 0 ≤ s.getD j 0 := by
  rcases eq_or_lt_of_le hij with rfl | hlt
  · exact le_refl _
  · rw [List.getD_eq_get _ _ (lt_trans hlt hj), List.getD_eq_get _ _ hj]
    exact List.Sorted.rel_get_of_lt hs hlt

theorem interpSorted_lower {s : List ℚ} (hs : List.Sorted (· ≤ ·) s)
    {h : ℚ} (hle : ((⌊h⌋.toNat : ℚ)) ≤ h)
    (hiu : ⌊h⌋.toNat ≤ s.length - 1) (hn1 : 1 ≤ s.length) :
    s.getD (⌊h⌋.toNat) 0 ≤ interpSorted s h := by
  unfold interpSorted
  by_cases hcase : ⌊h⌋.toNat + 1 < s.length
  · rw [if_pos hcase]
    have hd : 0 ≤ s.getD (⌊h⌋.toNat + 1) 0 - s.getD (⌊h⌋.toNat) 0 :=
      sub_nonneg.2 (sorted_getD_le hs (Nat.le_succ _) hcase)
    nlinarith [mul_nonneg (sub_nonneg.2 hle) hd]
  · rw [if_neg hcase]
    exact sorted_getD_le hs hiu (by omega)

theorem interpSorted_upper {s : List ℚ} (hs : List.Sorted (· ≤ ·) s)
    {h : ℚ} (hlt : h < ((⌊h⌋.toNat : ℚ)) + 1) (hn1 : 1 ≤ s.length) :
    interpSorted s h ≤ s.getD (min (⌊h⌋.toNat + 1) (s.length - 1)) 0 := by
  unfold interpSorted
  by_cases hcase : ⌊h⌋.toNat + 1 < s.length
  · rw [if_pos hcase, min_eq_left (by omega)]
    have hd : 0 ≤ s.getD (⌊h⌋.toNat + 1) 0 - s.getD (⌊h⌋.toNat) 0 :=
      sub_nonneg.2 (sorted_getD_le hs (Nat.le_succ _) hcase)
    nlinarith [mul_le_mul_of_nonneg_right (by linarith :
      h - ((⌊h⌋.toNat : ℚ)) ≤ 1) hd]
  · rw [if_neg hcase, min_eq_right (by omega)]

theorem interpSorted_mono {s : List ℚ} (hs : List.Sorted (· ≤ ·) s)
    {h1 h2 : ℚ} (h0 : 0 ≤ h1) (h12 : h1 ≤ h2)
    (hmax : h2 ≤ (s.length : ℚ) - 1) :
    interpSorted s h1 ≤ interpSorted s h2 := by
  have hn1 : 1 ≤ s.length := by
    rcases Nat.eq_zero_or_pos s.length with h0' | h1'
    · exfalso
      rw [h0'] at hmax
      push_cast at hmax
      linarith
    · exact h1'
  have hfl1 : (0 : ℤ) ≤ ⌊h1⌋ := Int.le_floor.mpr (by exact_mod_cast h0)
  have hfl2 : (0 : ℤ) ≤ ⌊h2⌋ := le_trans hfl1 (Int.floor_le_floor h12)
  have hc1 : ((⌊h1⌋.toNat : ℚ)) = ((⌊h1⌋ : ℤ) : ℚ) := by
    exact_mod_cast congrArg (fun z => ((z : ℤ) : ℚ)) (Int.toNat_of_nonneg hfl1)
  have hc2 : ((⌊h2⌋.toNat : ℚ)) = ((⌊h2⌋ : ℤ) : ℚ) := by
    exact_mod_cast congrArg (fun z => ((z : ℤ) : ℚ)) (Int.toNat_of_nonneg hfl2)
  have hle1 : ((⌊h1⌋.toNat : ℚ)) ≤ h1 := by rw [hc1]; exact Int.floor_le h1
  have hle2 : ((⌊h2⌋.toNat : ℚ)) ≤ h2 := by rw [hc2]; exact Int.floor_le h2
  have hlt1 : h1 < ((⌊h1⌋.toNat : ℚ)) + 1 := by
    rw [hc1]; exact_mod_cast Int.lt_floor_add_one h1
  have hi12 : ⌊h1⌋.toNat ≤ ⌊h2⌋.toNat :=
    Int.toNat_le_toNat (Int.floor_le_floor h12)
  have hiu2 : ⌊h2⌋.toNat ≤ s.length - 1 := by
    have hq : ((⌊h2⌋.toNat : ℚ)) ≤ ((s.length - 1 : ℕ) : ℚ) := by
      rw [Nat.cast_sub hn1]
      push_cast
      linarith
    exact_mod_cast hq
  have hiu1 : ⌊h1⌋.toNat ≤ s.length - 1 := le_trans hi12 hiu2
  rcases eq_or_lt_of_le hi12 with heq | hltidx
  · -- same integer cell: compare the interpolation weights
    unfold interpSorted
    rw [← heq]
    by_cases hcase : ⌊h1⌋.toNat + 1 < s.length
    · rw [if_pos hcase, if_pos hcase]
      have hd : 0 ≤ s.getD (⌊h1⌋.toNat + 1) 0 - s.getD (⌊h1⌋.toNat) 0 :=
        sub_nonneg.2 (sorted_getD_le hs (Nat.le_succ _) hcase)
      nlinarith [mul_le_mul_of_nonneg_right (by linarith :
        h1 - ((⌊h1⌋.toNat : ℚ)) ≤ h2 - ((⌊h1⌋.toNat : ℚ))) hd]
    · rw [if_neg hcase, if_neg hcase]
  · calc interpSorted s h1
        ≤ s.getD (min (⌊h1⌋.toNat + 1) (s.length - 1)) 0 :=
          interpSorted_upper hs hlt1 hn1
      _ ≤ s.getD (⌊h2⌋.toNat) 0 :=
          sorted_getD_le hs (le_trans (min_le_left _ _) hltidx) (by omega)
      _ ≤ interpSorted s h2 := interpSorted_lower hs hle2 hiu2 hn1

/-- `np.percentile` is monotone in the percentile rank `q` over `[0,100]`. -/
theorem percentile_mono (xs : List ℚ) {q1 q2 : ℚ} (h0 : 0 ≤ q1)
    (h12 : q1 ≤ q2) (h100 : q2 ≤ 100) :
    percentile xs q1 ≤ percentile xs q2 := by
  unfold percentile
  have hs : List.Sorted (· ≤ ·) (List.insertionSort (· ≤ ·) xs) :=
    List.sorted_insertionSort (· ≤ ·) xs
  rcases Nat.eq_zero_or_pos (List.insertionSort (· ≤ ·) xs).length with hn0 | hn1
  · rw [List.length_eq_zero.mp hn0]
    simp [interpSorted]
  · have hn1q : (1 : ℚ) ≤ ((List.insertionSort (· ≤ ·) xs).length : ℚ) := by
      exact_mod_cast hn1
    apply interpSorted_mono hs
    · apply mul_nonneg (div_nonneg h0 (by norm_num))
      linarith
    · apply mul_le_mul_of_nonneg_right _ (by linarith)
      exact (div_le_div_right (by norm_num)).mpr h12
    · calc q2 / 100 * (((List.insertionSort (· ≤ ·) xs).length : ℚ) - 1)
          ≤ 1 * (((List.insertionSort (· ≤ ·) xs).length : ℚ) - 1) := by
            apply mul_le_mul_of_nonneg_right _ (by linarith)
            exact (div_le_one (by norm_num)).mpr h100
        _ = ((List.insertionSort (· ≤ ·) xs).length : ℚ) - 1 := one_mul _

/-- Every sample is at most the 100th percentile (the sample maximum). -/
theorem le_percentile_100 {xs : List ℚ} {x : ℚ} (hx : x ∈ xs) :
    x ≤ percentile xs 100 := by
  unfold percentile
  have hs : List.Sorted (· ≤ ·) (List.insertionSort (· ≤ ·) xs) :=
    List.sorted_insertionSort (· ≤ ·) xs
  have hmem : x ∈ List.insertionSort (· ≤ ·) xs :=
    (List.mem_insertionSort _).2 hx
  have hn1 : 1 ≤ (List.insertionSort (· ≤ ·) xs).length :=
    List.length_pos.2 (List.ne_nil_of_mem hmem)
  have harg : (100 : ℚ) / 100 *
      (((List.insertionSort (· ≤ ·) xs).length : ℚ) - 1)
      = (((List.insertionSort (· ≤ ·) xs).length - 1 : ℕ) : ℚ) := by
    rw [Nat.cast_sub hn1]
    push_cast
    ring
  rw [harg]
  have hfloor : (⌊(((List.insertionSort (· ≤ ·) xs).length - 1 : ℕ) : ℚ)⌋).toNat
      = (List.insertionSort (· ≤ ·) xs).length - 1 := by
    rw [Int.floor_natCast]
    exact Int.toNat_natCast _
  unfold interpSorted
  rw [hfloor, if_neg (by omega)]
  obtain ⟨⟨m, hm⟩, hgm⟩ := List.mem_iff_get.1 hmem
  have hle := sorted_getD_le hs (i := m)
    (j := (List.insertionSort (· ≤ ·) xs).length - 1) (by omega) (by omega)
  rw [List.getD_eq_get _ _ hm, hgm] at hle
  exact hle

/-- Fewer points exceed a larger threshold. -/
theorem nFlagged_antitone (ys : Vec) {t1 t2 : ℚ} (h : t2 ≤ t1) :
    nFlagged ys t1 ≤ nFlagged ys t2 := by
  unfold nFlagged
  induction ys with
  | nil => exact le_refl _
  | cons y ys ih =>
    rw [List.filter_cons, List.filter_cons]
    by_cases h1 : t1 < y
    · rw [if_pos (by simpa using h1),
        if_pos (by simpa using lt_of_le_of_lt h h1)]
      simpa using ih
    · rw [if_neg (by simpa using h1)]
      by_cases h2 : t2 < y
      · rw [if_pos (by simpa using h2)]
        exact le_trans ih (Nat.le_succ _)
      · rw [if_neg (by simpa using h2)]
        exact ih

/-- No point is flagged when the threshold dominates every score. -/
theorem nFlagged_zero {ys : Vec} {t : ℚ} (h : ∀ y ∈ ys, y ≤ t) :
    nFlagged ys t = 0 := by
  unfold nFlagged
  rw [List.filter_eq_nil.mpr, List.length_nil]
  intro a ha
  simpa using not_lt.2 (h a ha)

/-- Computation rule for `GMM.anomaly_score` on explicit valid input. -/
theorem gmm_score_some_eq {s : GMMState} {model : Mat → Vec}
    (hg : s._gmm = some model) {X X1 : Mat} (hc : check_array X = .ok X1) :
    GMM.anomaly_score s (some X) = .ok ((model X1).map (fun t => -t)) := by
  unfold GMM.anomaly_score
  simp only [hg, hc]
  rfl

/-- **C3 (amended).**  For the empirical-percentile threshold (mixture
detector shown; kernel-density and angle-based share the identical
formula), decreasing `fpr` never *increases* the number of training points
flagged — the `100*(1-fpr)` percentile is antitone in `fpr` — and at
`fpr=0` the threshold is the maximum in-sample score, so *no* training
point is flagged.  For the chi-squared-calibrated Gaussian detector, no
training point is flagged whenever the fitted quantile dominates every
in-sample score (the case at `fpr=0`, where scipy's `ppf(1.0)` is
`+inf`). -/
theorem C3_threshold_monotonicity :
    (∀ (B : Mat → Mat → Vec) (pr1 pr2 : GMMParams) (s1 s2 : GMMState)
      (X : Mat),
      GMM.fit B { params := pr1 } X = (.ok (), s1) →
      GMM.fit B { params := pr2 } X = (.ok (), s2) →
      pr1.fpr ≤ pr2.fpr → 0 ≤ pr1.fpr → pr2.fpr ≤ 1 →
      ∃ ys t1 t2, s1.y_score_ = some ys ∧ s2.y_score_ = some ys ∧
        s1.threshold_ = some t1 ∧ s2.threshold_ = some t2 ∧
        nFlagged ys t1 ≤ nFlagged ys t2) ∧
    (∀ (B : Mat → Mat → Vec) (pr : GMMParams) (s' : GMMState) (X : Mat),
      pr.fpr = 0 → GMM.fit B { params := pr } X = (.ok (), s') →
      ∃ ys t, s'.y_score_ = some ys ∧ s'.threshold_ = some t ∧
        nFlagged ys t = 0) ∧
    (∀ (glassoFit : Mat → GLModel) (chi2fit : Vec → ℚ × ℚ × ℚ)
      (chi2ppf : ℚ → ℚ → ℚ → ℚ → ℚ) (logQ : ℚ → ℚ) (piQ : ℚ)
      (s s' : GaussianState) (X : Mat) (ys : Vec) (t : ℚ),
      Gaussian.fit glassoFit chi2fit chi2ppf logQ piQ s X = (.ok (), s') →
      s'.y_score_ = some ys → s'.threshold_ = some t →
      (∀ y ∈ ys, y ≤ t) → nFlagged ys t = 0) := by
  refine ⟨?_, ?_, ?_⟩
  · intro B pr1 pr2 s1 s2 X h1 h2 hf hf0 hf1
    obtain ⟨X1, ys1, hc1, ha1, rfl⟩ := gmm_fit_ok h1
    obtain ⟨X2, ys2, hc2, ha2, rfl⟩ := gmm_fit_ok h2
    have e1 : X1 = X := check_array_ok _ _ hc1
    subst e1
    have e2 : X2 = X1 := check_array_ok _ _ hc2
    subst e2
    rw [gmm_score_some_eq rfl hc1] at ha1
    rw [gmm_score_some_eq rfl hc2] at ha2
    obtain rfl := Except.ok.inj ha1
    obtain rfl := Except.ok.inj ha2
    refine ⟨_, _, _, rfl, rfl, rfl, rfl, ?_⟩
    apply nFlagged_antitone
    apply percentile_mono
    · show (0 : ℚ) ≤ 100 * (1 - pr2.fpr)
      linarith
    · show (100 : ℚ) * (1 - pr2.fpr) ≤ 100 * (1 - pr1.fpr)
      linarith
    · show (100 : ℚ) * (1 - pr1.fpr) ≤ 100
      linarith
  · intro B pr s' X hfpr h
    obtain ⟨X1, ys, hc, ha, rfl⟩ := gmm_fit_ok h
    refine ⟨ys, _, rfl, rfl, ?_⟩
    have harg : (100 : ℚ) * (1 - ({ params := pr } : GMMState).params.fpr)
        = 100 := by
      show (100 : ℚ) * (1 - pr.fpr) = 100
      rw [hfpr]
      norm_num
    rw [harg]
    exact nFlagged_zero (fun y hy => le_percentile_100 hy)
  · intro glassoFit chi2fit chi2ppf logQ piQ s s' X ys t h hy hth hdom
    exact nFlagged_zero hdom

/-- Witness for C3 (amended) at the counterexample's mixture data and a
concrete Gaussian instance. -/
theorem C3_witness :
    (GMM.fit (fun _ Q => Q.map (fun r => -(r.headD 0)))
        ({ params := { fpr := 0 } } : GMMState) [[0], [1], [2], [3]] =
      (.ok (), (GMM.fit (fun _ Q => Q.map (fun r => -(r.headD 0)))
        ({ params := { fpr := 0 } } : GMMState) [[0], [1], [2], [3]]).2) ∧
     GMM.fit (fun _ Q => Q.map (fun r => -(r.headD 0)))
        ({ params := { fpr := 1/2 } } : GMMState) [[0], [1], [2], [3]] =
      (.ok (), (GMM.fit (fun _ Q => Q.map (fun r => -(r.headD 0)))
        ({ params := { fpr := 1/2 } } : GMMState) [[0], [1], [2], [3]]).2) ∧
     (0 : ℚ) ≤ 1/2 ∧ (0 : ℚ) ≤ 0 ∧ (1/2 : ℚ) ≤ 1 ∧
     ∃ ys t1 t2,
      (GMM.fit (fun _ Q => Q.map (fun r => -(r.headD 0)))
        ({ params := { fpr := 0 } } : GMMState)
        [[0], [1], [2], [3]]).2.y_score_ = some ys ∧
      (GMM.fit (fun _ Q => Q.map (fun r => -(r.headD 0)))
        ({ params := { fpr := 1/2 } } : GMMState)
        [[0], [1], [2], [3]]).2.y_score_ = some ys ∧
      (GMM.fit (fun _ Q => Q.map (fun r => -(r.headD 0)))
        ({ params := { fpr := 0 } } : GMMState)
        [[0], [1], [2], [3]]).2.threshold_ = some t1 ∧
      (GMM.fit (fun _ Q => Q.map (fun r => -(r.headD 0)))
        ({ params := { fpr := 1/2 } } : GMMState)
        [[0], [1], [2], [3]]).2.threshold_ = some t2 ∧
      nFlagged ys t1 ≤ nFlagged ys t2) ∧
    (∃ ys t,
      (GMM.fit (fun _ Q => Q.map (fun r => -(r.headD 0)))
        ({ params := { fpr := 0 } } : GMMState)
        [[0], [1], [2], [3]]).2.y_score_ = some ys ∧
      (GMM.fit (fun _ Q => Q.map (fun r => -(r.headD 0)))
        ({ params := { fpr := 0 } } : GMMState)
        [[0], [1], [2], [3]]).2.threshold_ = some t ∧
      nFlagged ys t = 0) ∧
    ((∀ y ∈ ([0] : Vec), y ≤ (5 : ℚ)) ∧ nFlagged [0] 5 = 0) := by
  have h0 : GMM.fit (fun _ Q => Q.map (fun r => -(r.headD 0)))
      ({ params := { fpr := 0 } } : GMMState) [[0], [1], [2], [3]] =
      (.ok (), (GMM.fit (fun _ Q => Q.map (fun r => -(r.headD 0)))
        ({ params := { fpr := 0 } } : GMMState) [[0], [1], [2], [3]]).2) := by
    refine Prod.ext_iff.mpr ⟨?_, rfl⟩
    norm_num [GMM.fit, GMM.anomaly_score, check_array, Except.map]
  have h12 : GMM.fit (fun _ Q => Q.map (fun r => -(r.headD 0)))
      ({ params := { fpr := 1/2 } } : GMMState) [[0], [1], [2], [3]] =
      (.ok (), (GMM.fit (fun _ Q => Q.map (fun r => -(r.headD 0)))
        ({ params := { fpr := 1/2 } } : GMMState) [[0], [1], [2], [3]]).2) := by
    refine Prod.ext_iff.mpr ⟨?_, rfl⟩
    norm_num [GMM.fit, GMM.anomaly_score, check_array, Except.map]
  refine ⟨⟨h0, h12, by norm_num, le_refl 0, by norm_num,
    C3_threshold_monotonicity.1 _ _ _ _ _ _ h0 h12 (by norm_num) (le_refl 0)
      (by norm_num)⟩,
    C3_threshold_monotonicity.2.1 _ _ _ _ rfl h0, ?_⟩
  refine ⟨by intro y hy; simp at hy; simp [hy], ?_⟩
  exact C3_threshold_monotonicity.2.2
    (fun _ => ⟨[[1]], [0], fun Q => Q.map (fun _ => 0)⟩)
    (fun _ => (1, 2, 3)) (fun _ _ _ _ => 5) (fun _ => 0) 3
    ({ params := {} } : GaussianState)
    (Gaussian.fit (fun _ => ⟨[[1]], [0], fun Q => Q.map (fun _ => 0)⟩)
      (fun _ => (1, 2, 3)) (fun _ _ _ _ => 5) (fun _ => 0) 3
      ({ params := {} } : GaussianState) [[1]]).2
    [[1]] [0] 5
    (by refine Prod.ext_iff.mpr ⟨?_, rfl⟩
        norm_num [Gaussian.fit, Gaussian.anomaly_score,
          Gaussian.feature_wise_anomaly_score, check_array, matDiag, vecMat,
          matTranspose, sub, dot, percentileAxis0, percentile, interpSorted,
          listMean, List.insertionSort, List.orderedInsert, Except.map])
    (by norm_num [Gaussian.fit, Gaussian.anomaly_score,
          Gaussian.feature_wise_anomaly_score, check_array, matDiag, vecMat,
          matTranspose, sub, dot, percentileAxis0, percentile, interpSorted,
          listMean, List.insertionSort, List.orderedInsert, Except.map])
    (by norm_num [Gaussian.fit, Gaussian.anomaly_score,
          Gaussian.feature_wise_anomaly_score, check_array, matDiag, vecMat,
          matTranspose, sub, dot, percentileAxis0, percentile, interpSorted,
          listMean, List.insertionSort, List.orderedInsert, Except.map])
    (by intro y hy; simp at hy; simp [hy])

end Kenchi
